import Mathlib

set_option maxHeartbeats 1000000
set_option linter.unusedVariables false

/-!
Shallow embedding of `src/glview/preview/OpenCSGRenderer.cc` (OpenSCAD's
OpenCSG preview renderer).  The two render paths — the immediate path of
`OpenCSGRenderer::renderCSGProducts` and the buffer-build path of
`OpenCSGRenderer::createCSGProducts` plus its replay loop — are embedded as
pure functions producing traces of GL-level events.  External collaborators
that are not part of this repository slice (the color resolver
`Renderer::getShaderColor` / `Renderer::setColor`, the default-constructed
`Color4f` value, and `VBORenderer::create_surface`) are modelled as explicit
parameters or spec-modelled definitions, marked as such in their doc
comments.
-/

/-- RGBA color with rational components, embedding `Color4f`.
The renderer only ever compares the alpha component against `1.0`. -/
structure Color4f where
  r : Rat
  g : Rat
  b : Rat
  a : Rat
deriving DecidableEq, Repr

/-- Embeds a `PolySet` (the supported polygon-surface geometry).  `geomId`
identifies the shared immutable surface data; `isEmpty` records whether
writing this surface into a vertex buffer produces an empty draw range
(used by the spec-modelled `create_surface`). -/
structure PolySet where
  geomId : Nat
  convexity : Nat
  isEmpty : Bool
deriving DecidableEq, Repr

/-- A leaf's geometry: either a supported `PolySet` or some other (non
renderable) `Geometry` subclass.  The `dynamic_cast<const PolySet *>` in the
source corresponds to `Geometry.asPolySet`. -/
inductive Geometry where
  | polySet (ps : PolySet)
  | other (convexity : Nat)
deriving DecidableEq, Repr

/-- `Geometry::getConvexity()`. -/
def Geometry.getConvexity : Geometry → Nat
  | .polySet ps => ps.convexity
  | .other c => c

/-- The `dynamic_cast<const PolySet *>` used throughout the source: succeeds
exactly on the polygon-surface representation. -/
def Geometry.asPolySet : Geometry → Option PolySet
  | .polySet ps => some ps
  | .other _ => none

/-- Embeds `CSGLeaf`: shared geometry (a null shared pointer becomes
`none`), transform (kept abstract as an identifier), color, and the stable
per-leaf index used for selection encoding. -/
structure CSGLeaf where
  geom : Option Geometry
  matrix : Nat
  color : Color4f
  index : Nat
deriving DecidableEq, Repr

/-- Embeds `CSGChainObject` (only its `leaf` field is read by the renderer). -/
structure CSGChainObject where
  leaf : CSGLeaf
deriving DecidableEq, Repr

/-- Embeds `CSGProduct`: ordered intersection and subtraction leaf lists. -/
structure CSGProduct where
  intersections : List CSGChainObject
  subtractions : List CSGChainObject
deriving DecidableEq, Repr

/-- Embeds `CSGProducts`. -/
structure CSGProducts where
  products : List CSGProduct
deriving DecidableEq, Repr

/-- `OpenCSG::Operation`. -/
inductive OpenCSGOperation where
  | intersection
  | subtraction
deriving DecidableEq, Repr

/-- `Renderer::ColorMode` (the modes used by this renderer). -/
inductive ColorMode where
  | NONE
  | MATERIAL
  | CUTOUT
  | HIGHLIGHT
  | BACKGROUND
deriving DecidableEq, Repr

/-- `Renderer::shader_type_t`. -/
inductive ShaderType where
  | NONE
  | CSG_RENDERING
  | EDGE_RENDERING
  | SELECT_RENDERING
deriving DecidableEq, Repr

/-- Embeds `Renderer::shaderinfo_t`: program id, shader type, and the
uniform location used for selection-identifier upload. -/
structure ShaderInfo where
  progid : Nat
  type : ShaderType
  identifierLoc : Nat
deriving DecidableEq, Repr

/-- Modelled from the spec: the Color Resolver collaborators that live
outside this repository slice.  `getShaderColor` is
`Renderer::getShaderColor` (buffer-build path); it may decline to override
(`none`, the source's `false` return), in which case the caller keeps
`last_color`.  `setColor` is `Renderer::setColor` (immediate path), which
applies and returns the resolved color.  `colorDefault` is the value of a
default-constructed `Color4f` (the initial `last_color` and the value of
the local `color` when the resolver declines). -/
structure RenderEnv where
  getShaderColor : ColorMode → Color4f → Option Color4f
  setColor : ColorMode → Color4f → Option ShaderInfo → Color4f
  colorDefault : Color4f

/-- The experimental feature flags read by the renderer
(`Feature::ExperimentalVxORenderers` and friends). -/
structure Features where
  vxo : Bool
  vxoIndexing : Bool
  vxoDirect : Bool
  vxoPrealloc : Bool
deriving DecidableEq, Repr

/-- Embeds `OpenCSGPrim` (immediate path): operation, convexity taken from
the leaf's geometry, the `PolySet` if the geometry was one (else the null
`geom` member), and the transform. -/
structure OpenCSGPrim where
  operation : OpenCSGOperation
  convexity : Nat
  geom : Option PolySet
  m : Nat
deriving DecidableEq, Repr

/-- Embeds `OpenCSGVBOPrim` (buffer-build path): operation, convexity, and
the draw range it replays (identified by the surface geometry written). -/
structure OpenCSGVBOPrim where
  operation : OpenCSGOperation
  convexity : Nat
  geomId : Nat
deriving DecidableEq, Repr

/-- One GL-level event emitted by either render path. -/
inductive GLEvent where
  | renderImm (prims : List OpenCSGPrim)
  | renderVBO (prims : List OpenCSGVBOPrim)
  | depthFuncEqual
  | depthFuncLEqual
  | useProgram (progid : Nat)
  | selectUniform (loc b0 b1 b2 : Nat)
  | pushMatrix
  | multMatrix (m : Nat)
  | popMatrix
  | setColorCall (mode : ColorMode) (c : Color4f)
  | applyColor (c : Color4f)
  | enableCullFace
  | cullFaceFront
  | cullFaceBack
  | disableCullFace
  | drawSurface (geomId : Nat)
  | bindArrayBuffer (buf : Nat)
  | bindElementBuffer (buf : Nat)
  | shaderAttribsEnable
  | shaderAttribsDisable
  | shaderStateDraw
deriving DecidableEq, Repr

/-- Byte `k` of a selection identifier: `(identifier >> 8*k) & 0xff`. -/
def byteOf (idx k : Nat) : Nat := (idx >>> (8 * k)) &&& 255

/-- `OpenCSGRenderer::createCSGPrimitive` for a leaf whose geometry `g` is
present (the callers guard on `csgobj.leaf->geom`): the convexity is read
off the geometry, and `prim->geom` is set only when the geometry is a
`PolySet`. -/
def createCSGPrimitive (csgobj : CSGChainObject) (g : Geometry)
    (operation : OpenCSGOperation) : OpenCSGPrim :=
  { operation := operation
    convexity := g.getConvexity
    geom := g.asPolySet
    m := csgobj.leaf.matrix }

/-- `OpenCSGPrim::render`: draws only when `geom` is non-null. -/
def OpenCSGPrim.renderEvents (p : OpenCSGPrim) : List GLEvent :=
  match p.geom with
  | some ps => [.pushMatrix, .multMatrix p.m, .drawSurface ps.geomId, .popMatrix]
  | none => []

/-- The primitive list built at the top of the immediate path's product
loop: one `OpenCSGPrim` per leaf whose geometry pointer is non-null,
intersections first, then subtractions. -/
def immPrimitives (product : CSGProduct) : List OpenCSGPrim :=
  (product.intersections.filterMap fun o =>
    o.leaf.geom.map fun g => createCSGPrimitive o g .intersection) ++
  (product.subtractions.filterMap fun o =>
    o.leaf.geom.map fun g => createCSGPrimitive o g .subtraction)

/-- The selection-identifier upload in the immediate intersections loop:
emitted when a shader is active and its type is `SELECT_RENDERING`. -/
def immSelectEvents (shaderinfo : Option ShaderInfo) (idx : Nat) : List GLEvent :=
  match shaderinfo with
  | some si =>
    if si.type = ShaderType.SELECT_RENDERING then
      [.selectUniform si.identifierLoc (byteOf idx 0) (byteOf idx 1) (byteOf idx 2)]
    else []
  | none => []

/-- The `glUseProgram` call at the top of the immediate product loop:
issued when a shader with a non-zero program id is present and either it is
not the edge shader or edges are shown. -/
def immUseProgramEvents (shaderinfo : Option ShaderInfo) (showedges : Bool) : List GLEvent :=
  match shaderinfo with
  | some si =>
    if si.progid ≠ 0 then
      if si.type ≠ ShaderType.EDGE_RENDERING ∨
         (si.type = ShaderType.EDGE_RENDERING ∧ showedges = true) then
        [.useProgram si.progid]
      else []
    else []
  | none => []

/-- The immediate-path color mode for intersection leaves. -/
def intersectionColorMode (hl bg : Bool) : ColorMode :=
  if hl then ColorMode.HIGHLIGHT
  else if bg then ColorMode.BACKGROUND
  else ColorMode.MATERIAL

/-- The color mode for subtraction leaves. -/
def subtractionColorMode (hl bg : Bool) : ColorMode :=
  if hl then ColorMode.HIGHLIGHT
  else if bg then ColorMode.BACKGROUND
  else ColorMode.CUTOUT

/-- Body of the immediate path's intersections render loop, for one leaf:
skip unless the geometry is a `PolySet`; otherwise upload the selection
identifier if applicable, push and multiply the transform, resolve and
apply the color via `setColor`, then draw once if the resolved alpha is
`1.0` or as a front-culled/back-culled pair otherwise, and pop. -/
def immIntersectionEvents (env : RenderEnv) (shaderinfo : Option ShaderInfo)
    (hl bg : Bool) (csgobj : CSGChainObject) : List GLEvent :=
  match csgobj.leaf.geom.bind Geometry.asPolySet with
  | none => []
  | some ps =>
    immSelectEvents shaderinfo csgobj.leaf.index ++
    [.pushMatrix, .multMatrix csgobj.leaf.matrix] ++
    (let colormode := intersectionColorMode hl bg
     let color := env.setColor colormode csgobj.leaf.color shaderinfo
     [.setColorCall colormode csgobj.leaf.color] ++
     (if color.a = 1 then
        [.drawSurface ps.geomId]
      else
        [.enableCullFace, .cullFaceFront, .drawSurface ps.geomId,
         .cullFaceBack, .drawSurface ps.geomId, .disableCullFace])) ++
    [.popMatrix]

/-- Body of the immediate path's subtractions render loop, for one leaf:
skip unless the geometry is a `PolySet`; otherwise apply the color, push
and multiply the transform, and draw exactly once with front faces culled
(enable culling, cull front, draw, disable culling), then pop. -/
def immSubtractionEvents (env : RenderEnv) (shaderinfo : Option ShaderInfo)
    (hl bg : Bool) (csgobj : CSGChainObject) : List GLEvent :=
  match csgobj.leaf.geom.bind Geometry.asPolySet with
  | none => []
  | some ps =>
    let colormode := subtractionColorMode hl bg
    [.setColorCall colormode csgobj.leaf.color,
     .pushMatrix, .multMatrix csgobj.leaf.matrix,
     .enableCullFace, .cullFaceFront, .drawSurface ps.geomId,
     .disableCullFace, .popMatrix]

/-- The immediate path's per-product body
(`OpenCSGRenderer::renderCSGProducts`, non-VBO branch): build the primitive
list; invoke `OpenCSG::render` and switch the depth function to `GL_EQUAL`
only when more than one primitive was built; bind the shader program;
render intersection leaves then subtraction leaves; unbind the program if a
shader was given; delete the primitives; reset the depth function to
`GL_LEQUAL` unconditionally. -/
def renderProductImm (env : RenderEnv) (shaderinfo : Option ShaderInfo)
    (showedges hl bg : Bool) (product : CSGProduct) : List GLEvent :=
  let primitives := immPrimitives product
  (if primitives.length > 1 then [.renderImm primitives, .depthFuncEqual] else []) ++
  immUseProgramEvents shaderinfo showedges ++
  (product.intersections.flatMap (immIntersectionEvents env shaderinfo hl bg)) ++
  (product.subtractions.flatMap (immSubtractionEvents env shaderinfo hl bg)) ++
  (if shaderinfo.isSome then [.useProgram 0] else []) ++
  [.depthFuncLEqual]

/-- A GL state-change callback recorded in a `VertexState`'s `glBegin` or
`glEnd` list by the buffer-build path. -/
inductive StateOp where
  | enableCullFace
  | cullFaceFront
  | cullFaceBack
  | disableCullFace
deriving DecidableEq, Repr

/-- Embeds the `VertexState` objects appended to a product's retained list
by `createCSGProducts`:
`cullState` is a plain `VertexState` holding only culling callbacks;
`colorState` is the state appended by `VertexStateManager::addColor`;
`surface` is the `OpenCSGVertexState` recorded by `create_surface` for a
written draw range, tagged (via `csgObjectIndex`) with the leaf's stable
index; `shaderState` stands for a `VBOShaderVertexState` (none is created
by this translation unit, but the replay loop tests for it). -/
inductive VertexState where
  | cullState (beginOps endOps : List StateOp)
  | colorState (c : Color4f)
  | surface (geomId : Nat) (color : Color4f) (csgObjectIndex : Nat)
  | shaderState
deriving DecidableEq, Repr

/-- The GL event a recorded `StateOp` issues when replayed. -/
def StateOp.event : StateOp → GLEvent
  | .enableCullFace => .enableCullFace
  | .cullFaceFront => .cullFaceFront
  | .cullFaceBack => .cullFaceBack
  | .disableCullFace => .disableCullFace

/-- `VertexState::draw()`: run the `glBegin` callbacks, issue the draw call
when the state has one, run the `glEnd` callbacks. -/
def VertexState.drawEvents : VertexState → List GLEvent
  | .cullState b e => b.map StateOp.event ++ e.map StateOp.event
  | .colorState c => [.applyColor c]
  | .surface geomId _ _ => [.drawSurface geomId]
  | .shaderState => [.shaderStateDraw]

/-- The `dynamic_pointer_cast<OpenCSGVertexState>` in the replay loop:
yields the leaf index exactly for surface states. -/
def VertexState.csgIndex : VertexState → Option Nat
  | .surface _ _ i => some i
  | _ => none

/-- The `dynamic_pointer_cast<VBOShaderVertexState>` in the replay loop. -/
def VertexState.isShader : VertexState → Bool
  | .shaderState => true
  | _ => false

/-- Modelled from the spec: `VBORenderer::create_surface` (outside this
repository slice) writes the leaf's transformed surface attributes into the
product buffer using the given color and appends a surface `VertexState`
recording the written draw range; an empty surface write appends no
drawable surface state, so the subsequent recovery of `vertex_states->back()`
as an `OpenCSGVertexState` fails (`none`). -/
def create_surface (ps : PolySet) (color : Color4f) : Option (Nat × Color4f) :=
  if ps.isEmpty then none else some (ps.geomId, color)

/-- Body of the buffer-build path's intersections loop
(`createCSGProducts`), for one leaf, threading `last_color`.  Returns the
`VertexState`s and `OpenCSGVBOPrim`s this leaf appends together with the
updated `last_color`, or an `error` when the source hits
`assert(false && "Intersection surface state was nullptr")`.  A leaf whose
geometry is absent or not a `PolySet` appends nothing.  The resolver output
updates `last_color` only when it overrides; the opacity branch tests the
local `color` (the resolver output, or the default-constructed value when
the resolver declined).  An opaque leaf appends its surface state once; a
transparent leaf appends cull states around two occurrences of the same
surface state, and asserts if the surface state cannot be recovered. -/
def buildIntersectionLeaf (env : RenderEnv) (hl bg : Bool) (lastColor : Color4f)
    (csgobj : CSGChainObject) :
    Except String (List VertexState × List OpenCSGVBOPrim × Color4f) :=
  match csgobj.leaf.geom with
  | none => .ok ([], [], lastColor)
  | some g =>
    match g.asPolySet with
    | none => .ok ([], [], lastColor)
    | some ps =>
      let colormode := intersectionColorMode hl bg
      let resolved := env.getShaderColor colormode csgobj.leaf.color
      let color := resolved.getD env.colorDefault
      let lastColor1 := match resolved with
        | some c => c
        | none => lastColor
      if color.a = 1 then
        match create_surface ps lastColor1 with
        | some (gid, col) =>
          .ok ([VertexState.colorState lastColor1, VertexState.surface gid col csgobj.leaf.index],
               [{ operation := .intersection, convexity := g.getConvexity, geomId := gid }],
               lastColor1)
        | none => .ok ([VertexState.colorState lastColor1], [], lastColor1)
      else
        match create_surface ps lastColor1 with
        | some (gid, col) =>
          .ok ([VertexState.colorState lastColor1,
                VertexState.cullState [.enableCullFace, .cullFaceFront] [],
                VertexState.surface gid col csgobj.leaf.index,
                VertexState.cullState [.cullFaceBack] [],
                VertexState.surface gid col csgobj.leaf.index,
                VertexState.cullState [] [.disableCullFace]],
               [{ operation := .intersection, convexity := g.getConvexity, geomId := gid }],
               lastColor1)
        | none => .error "Intersection surface state was nullptr"

/-- Body of the buffer-build path's subtractions loop, for one leaf: as for
intersections but with the `CUTOUT` color mode, a single surface draw
bracketed by enable-culling/cull-front before and disable-culling after
regardless of alpha, and the
`assert(false && "Subtraction surface state was nullptr")` when the surface
state cannot be recovered. -/
def buildSubtractionLeaf (env : RenderEnv) (hl bg : Bool) (lastColor : Color4f)
    (csgobj : CSGChainObject) :
    Except String (List VertexState × List OpenCSGVBOPrim × Color4f) :=
  match csgobj.leaf.geom with
  | none => .ok ([], [], lastColor)
  | some g =>
    match g.asPolySet with
    | none => .ok ([], [], lastColor)
    | some ps =>
      let colormode := subtractionColorMode hl bg
      let resolved := env.getShaderColor colormode csgobj.leaf.color
      let lastColor1 := match resolved with
        | some c => c
        | none => lastColor
      match create_surface ps lastColor1 with
      | some (gid, col) =>
        .ok ([VertexState.colorState lastColor1,
              VertexState.cullState [.enableCullFace, .cullFaceFront] [],
              VertexState.surface gid col csgobj.leaf.index,
              VertexState.cullState [] [.disableCullFace]],
             [{ operation := .subtraction, convexity := g.getConvexity, geomId := gid }],
             lastColor1)
      | none => .error "Subtraction surface state was nullptr"

/-- Folds a per-leaf build step over a leaf list, threading `last_color`
and concatenating the appended `VertexState`s and primitives, aborting at
the first assertion failure. -/
def buildFold
    (step : Color4f → CSGChainObject →
      Except String (List VertexState × List OpenCSGVBOPrim × Color4f)) :
    Color4f → List CSGChainObject →
      Except String (List VertexState × List OpenCSGVBOPrim × Color4f)
  | lc, [] => .ok ([], [], lc)
  | lc, o :: rest =>
    match step lc o with
    | .error e => .error e
    | .ok (s1, p1, lc1) =>
      match buildFold step lc1 rest with
      | .error e => .error e
      | .ok (s2, p2, lc2) => .ok (s1 ++ s2, p1 ++ p2, lc2)

/-- One product's buffer construction (`createCSGProducts` product-loop
body): `last_color` starts default-constructed; the intersections are
processed first, then the subtractions, accumulating the retained
`VertexState` list and the retained primitive list. -/
def createProductStates (env : RenderEnv) (hl bg : Bool) (product : CSGProduct) :
    Except String (List VertexState × List OpenCSGVBOPrim) :=
  match buildFold (buildIntersectionLeaf env hl bg) env.colorDefault product.intersections with
  | .error e => .error e
  | .ok (s1, p1, lc1) =>
    match buildFold (buildSubtractionLeaf env hl bg) lc1 product.subtractions with
    | .error e => .error e
    | .ok (s2, p2, _) => .ok (s1 ++ s2, p1 ++ p2)

/-- The buffer unbinding at the end of one product's construction
(`createCSGProducts`, after the subtractions loop): only when the direct or
preallocated buffer mode is enabled; the element-array-buffer unbind is
additionally guarded by the indexing flag and precedes the array-buffer
unbind. -/
def productUnbindEvents (flags : Features) : List GLEvent :=
  if flags.vxoDirect || flags.vxoPrealloc then
    (if flags.vxoIndexing then [.bindElementBuffer 0] else []) ++ [.bindArrayBuffer 0]
  else []

/-- The selection-identifier upload in the replay loop: emitted when the
state is recoverable as an `OpenCSGVertexState` and the active shader is
the selection shader. -/
def selectionEvents (shaderinfo : Option ShaderInfo) (vs : VertexState) : List GLEvent :=
  match shaderinfo, vs.csgIndex with
  | some si, some idx =>
    if si.type = ShaderType.SELECT_RENDERING then
      [.selectUniform si.identifierLoc (byteOf idx 0) (byteOf idx 1) (byteOf idx 2)]
    else []
  | _, _ => []

/-- Replay of one retained `VertexState` (`renderCSGProducts`, VBO branch,
loop body): upload the selection identifier when applicable, then draw the
state unless it is a shader state and edges are hidden. -/
def replayState (shaderinfo : Option ShaderInfo) (showedges : Bool)
    (vs : VertexState) : List GLEvent :=
  selectionEvents shaderinfo vs ++
  (if !vs.isShader || (showedges && vs.isShader) then vs.drawEvents else [])

/-- The shader-program bind at the top of the VBO product loop: bind the
program when one with a non-zero id is given, and enable the edge-shader
vertex attributes when the edge shader is active and edges are shown. -/
def vboProgramBeginEvents (shaderinfo : Option ShaderInfo) (showedges : Bool) : List GLEvent :=
  match shaderinfo with
  | some si =>
    if si.progid ≠ 0 then
      [.useProgram si.progid] ++
      (if si.type = ShaderType.EDGE_RENDERING ∧ showedges = true then
         [.shaderAttribsEnable] else [])
    else []
  | none => []

/-- The shader-program unbind at the bottom of the VBO product loop. -/
def vboProgramEndEvents (shaderinfo : Option ShaderInfo) (showedges : Bool) : List GLEvent :=
  match shaderinfo with
  | some si =>
    if si.progid ≠ 0 then
      [.useProgram 0] ++
      (if si.type = ShaderType.EDGE_RENDERING ∧ showedges = true then
         [.shaderAttribsDisable] else [])
    else []
  | none => []

/-- The buffer-build path's per-product replay
(`OpenCSGRenderer::renderCSGProducts`, VBO branch): invoke
`OpenCSG::render` on the retained primitives and switch the depth function
to `GL_EQUAL` only when there is more than one primitive; bind the shader
program (enabling edge-shader attributes when edges are shown); replay each
retained `VertexState`; unbind the program; reset the depth function to
`GL_LEQUAL` unconditionally. -/
def renderProductVBO (shaderinfo : Option ShaderInfo) (showedges : Bool)
    (prims : List OpenCSGVBOPrim) (states : List VertexState) : List GLEvent :=
  (if prims.length > 1 then [.renderVBO prims, .depthFuncEqual] else []) ++
  vboProgramBeginEvents shaderinfo showedges ++
  (states.flatMap (replayState shaderinfo showedges)) ++
  vboProgramEndEvents shaderinfo showedges ++
  [.depthFuncLEqual]

/-- One retained `OpenCSGVBOProduct`: the primitive list handed to the
compositor and the `VertexState` list replayed each frame. -/
structure OpenCSGVBOProduct where
  primitives : List OpenCSGVBOPrim
  states : List VertexState
deriving DecidableEq, Repr

/-- The renderer's mutable state relevant to `prepare`: the retained
products (`vbo_vertex_products`) and the running count of GPU buffer names
generated via `glGenBuffers`. -/
structure RState where
  vbo_vertex_products : List OpenCSGVBOProduct
  buffersGenerated : Nat
deriving DecidableEq, Repr

/-- The product loop of `createCSGProducts`: each product's construction
appends one retained `OpenCSGVBOProduct`; an assertion failure aborts. -/
def buildProductsFold (env : RenderEnv) (hl bg : Bool) :
    List CSGProduct → RState → Except String RState
  | [], s => .ok s
  | p :: rest, s =>
    match createProductStates env hl bg p with
    | .error e => .error e
    | .ok (states, prims) =>
      buildProductsFold env hl bg rest
        { s with vbo_vertex_products :=
            s.vbo_vertex_products ++ [{ primitives := prims, states := states }] }

/-- `OpenCSGRenderer::createCSGProducts` at the state level: generate one
buffer name per product (two with indexing) when there is at least one
product, then run the product loop. -/
def createCSGProducts (env : RenderEnv) (flags : Features) (products : CSGProducts)
    (hl bg : Bool) (s : RState) : Except String RState :=
  let vbo_count := (if flags.vxoIndexing then 2 else 1) * products.products.length
  let s1 := if vbo_count ≠ 0 then
    { s with buffersGenerated := s.buffersGenerated + vbo_count } else s
  buildProductsFold env hl bg products.products s1

/-- The three optional product groups handed to the renderer's
constructor. -/
structure OpenCSGRendererInput where
  root_products : Option CSGProducts
  highlights_products : Option CSGProducts
  background_products : Option CSGProducts

/-- `OpenCSGRenderer::prepare`: when the VxO renderers feature is enabled
and no retained products exist yet, build the root, background, and
highlights groups in that order; otherwise do nothing. -/
def prepare (env : RenderEnv) (flags : Features) (r : OpenCSGRendererInput)
    (s : RState) : Except String RState :=
  if flags.vxo = true ∧ s.vbo_vertex_products.length = 0 then
    (match r.root_products with
     | some p => createCSGProducts env flags p false false s
     | none => Except.ok s).bind fun s1 =>
    (match r.background_products with
     | some p => createCSGProducts env flags p false true s1
     | none => Except.ok s1).bind fun s2 =>
    (match r.highlights_products with
     | some p => createCSGProducts env flags p true false s2
     | none => Except.ok s2)
  else .ok s

/-- Is the event a compositor invocation (`OpenCSG::render`)? -/
def isCompositeEv : GLEvent → Bool
  | .renderImm _ => true
  | .renderVBO _ => true
  | _ => false

/-- Is the event the switch of the depth function to `GL_EQUAL`? -/
def isDepthEqualEv : GLEvent → Bool
  | .depthFuncEqual => true
  | _ => false

/-- Is the event the reset of the depth function to `GL_LEQUAL`? -/
def isDepthLEqualEv : GLEvent → Bool
  | .depthFuncLEqual => true
  | _ => false

/-- Is the event a surface draw call? -/
def isDrawEv : GLEvent → Bool
  | .drawSurface _ => true
  | _ => false

/-- Is the event a face-culling state change or a surface draw? -/
def cullDrawP : GLEvent → Bool
  | .enableCullFace => true
  | .cullFaceFront => true
  | .cullFaceBack => true
  | .disableCullFace => true
  | .drawSurface _ => true
  | _ => false

/-- The face-culling/draw subtrace of an event list. -/
def cullDraw (evs : List GLEvent) : List GLEvent := evs.filter cullDrawP

/-- Number of surface draw calls in a trace. -/
def drawCount (evs : List GLEvent) : Nat := evs.countP isDrawEv

/-- Product-level control events: compositor invocations and depth-function
changes.  None is ever emitted from inside a per-leaf segment. -/
def isProductCtl : GLEvent → Bool
  | .renderImm _ => true
  | .renderVBO _ => true
  | .depthFuncEqual => true
  | .depthFuncLEqual => true
  | _ => false

/-- Example environment: the resolver always overrides with the leaf's own
color, and the default-constructed color is opaque black. -/
def exEnv : RenderEnv where
  getShaderColor := fun _ c => some c
  setColor := fun _ c _ => c
  colorDefault := ⟨0, 0, 0, 1⟩

/-- Example environment whose resolver always declines to override. -/
def exEnvDecline : RenderEnv where
  getShaderColor := fun _ _ => none
  setColor := fun _ c _ => c
  colorDefault := ⟨0, 0, 0, 1⟩

/-- An opaque leaf with non-empty polygon-surface geometry. -/
def exLeafOpaque : CSGChainObject :=
  ⟨{ geom := some (.polySet ⟨4, 2, false⟩), matrix := 9, color := ⟨1, 1, 1, 1⟩, index := 8 }⟩

/-- A transparent (alpha 0) leaf with non-empty polygon-surface geometry. -/
def exLeafTransp : CSGChainObject :=
  ⟨{ geom := some (.polySet ⟨3, 2, false⟩), matrix := 9, color := ⟨1, 1, 1, 0⟩, index := 7 }⟩

/-- A leaf whose geometry is present but not a polygon surface. -/
def exLeafOther : CSGChainObject :=
  ⟨{ geom := some (.other 5), matrix := 9, color := ⟨1, 1, 1, 1⟩, index := 9 }⟩

/-- A leaf with no geometry (null shared pointer). -/
def exLeafNoGeom : CSGChainObject :=
  ⟨{ geom := none, matrix := 9, color := ⟨1, 1, 1, 1⟩, index := 10 }⟩

/-- An opaque leaf whose polygon surface writes an empty draw range. -/
def exLeafEmptyOpaque : CSGChainObject :=
  ⟨{ geom := some (.polySet ⟨5, 2, true⟩), matrix := 9, color := ⟨1, 1, 1, 1⟩, index := 11 }⟩

/-- A transparent leaf whose polygon surface writes an empty draw range. -/
def exLeafEmptyTransp : CSGChainObject :=
  ⟨{ geom := some (.polySet ⟨6, 2, true⟩), matrix := 9, color := ⟨1, 1, 1, 0⟩, index := 12 }⟩

/-- A Product with exactly one opaque intersection leaf. -/
def exProdOpaque : CSGProduct := ⟨[exLeafOpaque], []⟩

/-- A Product with exactly one transparent intersection leaf. -/
def exProdTransp : CSGProduct := ⟨[exLeafTransp], []⟩

/-- A Product with one supported and one unsupported-geometry leaf. -/
def exProdUnsupported : CSGProduct := ⟨[exLeafOpaque, exLeafOther], []⟩

/-- A selection-mode shader. -/
def exShaderSelect : ShaderInfo := ⟨2, .SELECT_RENDERING, 11⟩

/-- The `OpenCSGVBOPrim` a leaf contributes in the buffer-build path, when
it contributes one: present only for a leaf whose geometry is present and
is a `PolySet`. -/
def vboPrimOf (op : OpenCSGOperation) (o : CSGChainObject) : Option OpenCSGVBOPrim :=
  match o.leaf.geom with
  | some g =>
    match g.asPolySet with
    | some ps => some { operation := op, convexity := g.getConvexity, geomId := ps.geomId }
    | none => none
  | none => none

/-- Replay of one retained `VertexState` as the spec describes it: execute
the selection upload when applicable and then unconditionally the state's
pre-draw callbacks, draw call, and post-draw callbacks. -/
def replayStateSpec (shaderinfo : Option ShaderInfo) (vs : VertexState) : List GLEvent :=
  selectionEvents shaderinfo vs ++ vs.drawEvents

theorem countP_eq_zero_of_not {l : List GLEvent} {p : GLEvent → Bool}
    (h : ∀ e ∈ l, p e = false) : l.countP p = 0 := by
  rw [List.countP_eq_zero]
  intro e he
  simp [h e he]

theorem mem_immSelectEvents {si : Option ShaderInfo} {idx : Nat} {e : GLEvent}
    (h : e ∈ immSelectEvents si idx) : ∃ l b0 b1 b2, e = .selectUniform l b0 b1 b2 := by
  unfold immSelectEvents at h
  rcases si with _ | si
  · simp at h
  · by_cases hc : si.type = ShaderType.SELECT_RENDERING
    · simp only [hc, if_true, List.mem_singleton] at h
      exact ⟨_, _, _, _, h⟩
    · simp [hc] at h

theorem mem_immUseProgramEvents {si : Option ShaderInfo} {se : Bool} {e : GLEvent}
    (h : e ∈ immUseProgramEvents si se) : ∃ n, e = .useProgram n := by
  unfold immUseProgramEvents at h
  rcases si with _ | si
  · simp at h
  · by_cases hp : si.progid ≠ 0
    · by_cases hc : si.type ≠ ShaderType.EDGE_RENDERING ∨
        (si.type = ShaderType.EDGE_RENDERING ∧ se = true)
      · simp only [ne_eq, hp, not_false_eq_true, hc, if_true, List.mem_singleton] at h
        exact ⟨_, h⟩
      · simp [hp, hc] at h
    · simp [hp] at h

theorem immIntersectionEvents_not_ctl {env : RenderEnv} {si : Option ShaderInfo}
    {hl bg : Bool} {o : CSGChainObject} :
    ∀ e ∈ immIntersectionEvents env si hl bg o, isProductCtl e = false := by
  intro e he
  unfold immIntersectionEvents at he
  rcases hg : o.leaf.geom.bind Geometry.asPolySet with _ | ps
  · rw [hg] at he; simp at he
  · rw [hg] at he
    simp only [List.mem_append, List.mem_cons, List.not_mem_nil, or_false] at he
    rcases he with ((hsel | he) | he) | he
    · obtain ⟨l, b0, b1, b2, rfl⟩ := mem_immSelectEvents hsel
      rfl
    · rcases he with rfl | rfl <;> rfl
    · rcases he with rfl | he
      · rfl
      · split at he <;> simp only [List.mem_cons, List.not_mem_nil, or_false] at he <;>
          rcases he with rfl | he <;> first | rfl |
            (rcases he with rfl | he <;> first | rfl |
              (rcases he with rfl | he <;> first | rfl |
                (rcases he with rfl | he <;> first | rfl |
                  (rcases he with rfl | rfl <;> rfl))))
    · subst he; rfl

theorem immSubtractionEvents_not_ctl {env : RenderEnv} {si : Option ShaderInfo}
    {hl bg : Bool} {o : CSGChainObject} :
    ∀ e ∈ immSubtractionEvents env si hl bg o, isProductCtl e = false := by
  intro e he
  unfold immSubtractionEvents at he
  rcases hg : o.leaf.geom.bind Geometry.asPolySet with _ | ps
  · rw [hg] at he; simp at he
  · rw [hg] at he
    simp only [List.mem_cons, List.not_mem_nil, or_false] at he
    rcases he with rfl | rfl | rfl | rfl | rfl | rfl | rfl | rfl <;> rfl

theorem countP_flatMap_zero {α : Type} (l : List α) (f : α → List GLEvent)
    (p : GLEvent → Bool) (h : ∀ x ∈ l, (f x).countP p = 0) :
    (l.flatMap f).countP p = 0 := by
  induction l with
  | nil => rfl
  | cons a t ih =>
    rw [List.flatMap_cons, List.countP_append, h a (by simp),
      ih (fun x hx => h x (List.mem_cons_of_mem a hx))]

theorem isProductCtl_false_elim {e : GLEvent} (h : isProductCtl e = false) :
    isDepthLEqualEv e = false ∧ isDepthEqualEv e = false ∧ isCompositeEv e = false := by
  cases e <;> simp_all [isProductCtl, isDepthLEqualEv, isDepthEqualEv, isCompositeEv]

theorem mem_selectionEvents {si : Option ShaderInfo} {vs : VertexState} {e : GLEvent}
    (h : e ∈ selectionEvents si vs) : ∃ l b0 b1 b2, e = .selectUniform l b0 b1 b2 := by
  unfold selectionEvents at h
  rcases si with _ | si <;> rcases hvi : vs.csgIndex with _ | i <;> rw [hvi] at h <;>
    simp only at h
  · simp at h
  · simp at h
  · simp at h
  · by_cases hc : si.type = ShaderType.SELECT_RENDERING
    · simp only [hc, if_true, List.mem_singleton] at h
      exact ⟨_, _, _, _, h⟩
    · simp [hc] at h

theorem stateOp_event_not_ctl (op : StateOp) :
    isProductCtl op.event = false ∧ isDrawEv op.event = false := by
  cases op <;> simp [StateOp.event, isProductCtl, isDrawEv]

theorem drawEvents_not_ctl {vs : VertexState} :
    ∀ e ∈ vs.drawEvents, isProductCtl e = false := by
  intro e he
  cases vs with
  | cullState b en =>
    simp only [VertexState.drawEvents, List.mem_append, List.mem_map] at he
    rcases he with ⟨op, _, rfl⟩ | ⟨op, _, rfl⟩ <;> exact (stateOp_event_not_ctl op).1
  | colorState c => simp only [VertexState.drawEvents, List.mem_singleton] at he; subst he; rfl
  | surface g c i => simp only [VertexState.drawEvents, List.mem_singleton] at he; subst he; rfl
  | shaderState => simp only [VertexState.drawEvents, List.mem_singleton] at he; subst he; rfl

theorem replayState_not_ctl {si : Option ShaderInfo} {se : Bool} {vs : VertexState} :
    ∀ e ∈ replayState si se vs, isProductCtl e = false := by
  intro e he
  unfold replayState at he
  rcases List.mem_append.mp he with hsel | hdr
  · obtain ⟨l, b0, b1, b2, rfl⟩ := mem_selectionEvents hsel
    rfl
  · split at hdr
    · exact drawEvents_not_ctl e hdr
    · simp at hdr

theorem vboProgramBeginEvents_not_ctl {si : Option ShaderInfo} {se : Bool} :
    ∀ e ∈ vboProgramBeginEvents si se, isProductCtl e = false := by
  intro e he
  unfold vboProgramBeginEvents at he
  rcases si with _ | si
  · simp at he
  · by_cases hp : si.progid ≠ 0
    · simp only [ne_eq, hp, not_false_eq_true, if_true, List.mem_append,
        List.mem_singleton] at he
      rcases he with rfl | he
      · rfl
      · split at he <;> simp only [List.mem_singleton, List.not_mem_nil] at he
        subst he; rfl
    · simp [hp] at he

theorem vboProgramEndEvents_not_ctl {si : Option ShaderInfo} {se : Bool} :
    ∀ e ∈ vboProgramEndEvents si se, isProductCtl e = false := by
  intro e he
  unfold vboProgramEndEvents at he
  rcases si with _ | si
  · simp at he
  · by_cases hp : si.progid ≠ 0
    · simp only [ne_eq, hp, not_false_eq_true, if_true, List.mem_append,
        List.mem_singleton] at he
      rcases he with rfl | he
      · rfl
      · split at he <;> simp only [List.mem_singleton, List.not_mem_nil] at he
        subst he; rfl
    · simp [hp] at he

theorem countP_zero_of_not_ctl {l : List GLEvent}
    (h : ∀ e ∈ l, isProductCtl e = false) :
    l.countP isDepthLEqualEv = 0 ∧ l.countP isDepthEqualEv = 0 ∧
      l.countP isCompositeEv = 0 :=
  ⟨countP_eq_zero_of_not fun e he => by simp [(isProductCtl_false_elim (h e he)).1],
   countP_eq_zero_of_not fun e he => by simp [(isProductCtl_false_elim (h e he)).2.1],
   countP_eq_zero_of_not fun e he => by simp [(isProductCtl_false_elim (h e he)).2.2]⟩

theorem immUseProgramEvents_not_ctl {si : Option ShaderInfo} {se : Bool} :
    ∀ e ∈ immUseProgramEvents si se, isProductCtl e = false := by
  intro e he
  obtain ⟨n, rfl⟩ := mem_immUseProgramEvents he
  rfl

theorem flatMap_not_ctl {α : Type} {l : List α} {f : α → List GLEvent}
    (h : ∀ x ∈ l, ∀ e ∈ f x, isProductCtl e = false) :
    ∀ e ∈ l.flatMap f, isProductCtl e = false := by
  intro e he
  obtain ⟨x, hx, hex⟩ := List.mem_flatMap.mp he
  exact h x hx e hex

theorem renderProductImm_notCtl_counts (env : RenderEnv) (si : Option ShaderInfo)
    (se hl bg : Bool) (product : CSGProduct) :
    ∀ p : GLEvent → Bool,
      (∀ e, isProductCtl e = false → p e = false) →
      (renderProductImm env si se hl bg product).countP p
        = ((if (immPrimitives product).length > 1 then
              [GLEvent.renderImm (immPrimitives product), GLEvent.depthFuncEqual]
            else []) ++ [GLEvent.depthFuncLEqual]).countP p := by
  intro p hp
  have hz : ∀ l : List GLEvent, (∀ e ∈ l, isProductCtl e = false) → l.countP p = 0 :=
    fun l h => countP_eq_zero_of_not fun e he => by simp [hp e (h e he)]
  unfold renderProductImm
  simp only [List.countP_append]
  rw [hz _ (immUseProgramEvents_not_ctl),
    hz _ (flatMap_not_ctl fun x _ => immIntersectionEvents_not_ctl),
    hz _ (flatMap_not_ctl fun x _ => immSubtractionEvents_not_ctl),
    hz (if si.isSome then [GLEvent.useProgram 0] else []) ?_]
  · omega
  · intro e he
    split at he <;> simp only [List.mem_singleton, List.not_mem_nil] at he
    subst he; rfl

theorem renderProductVBO_notCtl_counts (si : Option ShaderInfo) (se : Bool)
    (prims : List OpenCSGVBOPrim) (states : List VertexState) :
    ∀ p : GLEvent → Bool,
      (∀ e, isProductCtl e = false → p e = false) →
      (renderProductVBO si se prims states).countP p
        = ((if prims.length > 1 then
              [GLEvent.renderVBO prims, GLEvent.depthFuncEqual]
            else []) ++ [GLEvent.depthFuncLEqual]).countP p := by
  intro p hp
  have hz : ∀ l : List GLEvent, (∀ e ∈ l, isProductCtl e = false) → l.countP p = 0 :=
    fun l h => countP_eq_zero_of_not fun e he => by simp [hp e (h e he)]
  unfold renderProductVBO
  simp only [List.countP_append]
  rw [hz _ (vboProgramBeginEvents_not_ctl),
    hz _ (flatMap_not_ctl fun x _ => replayState_not_ctl),
    hz _ (vboProgramEndEvents_not_ctl)]
  omega

/-- C8 (amended): in both render paths the reset of the depth function to
`GL_LEQUAL` is issued exactly once per Product, unconditionally — also when
compositing was skipped because at most one primitive was built — while the
switch to `GL_EQUAL` is issued exactly when more than one primitive was
built for the Product. -/
theorem depthFunc_reset_every_product (env : RenderEnv) (si : Option ShaderInfo)
    (se hl bg : Bool) (product : CSGProduct) (prims : List OpenCSGVBOPrim)
    (states : List VertexState) :
    (renderProductImm env si se hl bg product).countP isDepthLEqualEv = 1 ∧
    ((renderProductImm env si se hl bg product).countP isDepthEqualEv
      = if (immPrimitives product).length > 1 then 1 else 0) ∧
    (renderProductVBO si se prims states).countP isDepthLEqualEv = 1 ∧
    ((renderProductVBO si se prims states).countP isDepthEqualEv
      = if prims.length > 1 then 1 else 0) := by
  have h1 := renderProductImm_notCtl_counts env si se hl bg product isDepthLEqualEv
    (fun e he => (isProductCtl_false_elim he).1)
  have h2 := renderProductImm_notCtl_counts env si se hl bg product isDepthEqualEv
    (fun e he => (isProductCtl_false_elim he).2.1)
  have h3 := renderProductVBO_notCtl_counts si se prims states isDepthLEqualEv
    (fun e he => (isProductCtl_false_elim he).1)
  have h4 := renderProductVBO_notCtl_counts si se prims states isDepthEqualEv
    (fun e he => (isProductCtl_false_elim he).2.1)
  rw [h1, h2, h3, h4]
  refine ⟨?_, ?_, ?_, ?_⟩ <;> split <;>
    simp [List.countP_cons, List.countP_nil, isDepthLEqualEv, isDepthEqualEv,
      List.countP_append]

/-- C8 counterexample: for a Product with a single (opaque) intersection
leaf the primitive list has one element, compositing is skipped, and yet
the immediate path still issues the `GL_LEQUAL` depth-function reset (and
the VBO path does too) — the claim that no reset is issued for such a
Product is false. -/
theorem depthFunc_reset_skipped_claim_false :
    (immPrimitives exProdOpaque).length = 1 ∧
    (renderProductImm exEnv none false false false exProdOpaque).countP
      isDepthLEqualEv = 1 ∧
    (renderProductVBO none false
        [{ operation := .intersection, convexity := 2, geomId := 4 }]
        [VertexState.surface 4 ⟨1, 1, 1, 1⟩ 8]).countP isDepthLEqualEv = 1 := by
  refine ⟨rfl, ?_, rfl⟩
  rfl

/-- C9 (amended): at the end of a Product's buffer construction the
array-buffer binding is cleared exactly when the direct or preallocated
buffer mode is enabled, and the element-array-buffer binding is cleared
exactly when additionally the indexed-drawing mode is active; with neither
direct nor preallocated mode enabled no unbind is issued at all. -/
theorem unbind_after_construction (flags : Features) :
    (GLEvent.bindArrayBuffer 0 ∈ productUnbindEvents flags ↔
      (flags.vxoDirect = true ∨ flags.vxoPrealloc = true)) ∧
    (GLEvent.bindElementBuffer 0 ∈ productUnbindEvents flags ↔
      ((flags.vxoDirect = true ∨ flags.vxoPrealloc = true) ∧
        flags.vxoIndexing = true)) := by
  rcases flags with ⟨v, i, d, p⟩
  cases v <;> cases i <;> cases d <;> cases p <;> exact (by decide)

/-- C9 counterexample: with the indexed-drawing mode active but neither the
direct nor the preallocated buffer mode enabled, a Product's buffer
construction ends with no unbind call at all — the claim that the
array-buffer (and element-array-buffer) binding is always cleared is
false. -/
theorem unbind_not_unconditional :
    productUnbindEvents ⟨true, true, false, false⟩ = [] ∧
    GLEvent.bindArrayBuffer 0 ∉ productUnbindEvents ⟨true, true, false, false⟩ ∧
    GLEvent.bindElementBuffer 0 ∉ productUnbindEvents ⟨true, true, false, false⟩ := by
  decide

theorem buildProductsFold_ok_length (env : RenderEnv) (hl bg : Bool) :
    ∀ (ps : List CSGProduct) (s t : RState),
      buildProductsFold env hl bg ps s = .ok t →
      t.vbo_vertex_products.length = s.vbo_vertex_products.length + ps.length := by
  intro ps
  induction ps with
  | nil =>
    intro s t h
    unfold buildProductsFold at h
    cases h
    simp
  | cons p rest ih =>
    intro s t h
    unfold buildProductsFold at h
    rcases hcp : createProductStates env hl bg p with e | sp
    · rw [hcp] at h; cases h
    · rcases sp with ⟨states, prims⟩
      rw [hcp] at h
      have := ih _ _ h
      simp only [List.length_append, List.length_cons, List.length_nil] at this ⊢
      omega

theorem createCSGProducts_ok_cases {env : RenderEnv} {flags : Features}
    {P : CSGProducts} {hl bg : Bool} {s t : RState}
    (h : createCSGProducts env flags P hl bg s = .ok t) :
    t.vbo_vertex_products.length
      = s.vbo_vertex_products.length + P.products.length ∧
    (P.products.length = 0 → t = s) := by
  unfold createCSGProducts at h
  constructor
  · have hlen := buildProductsFold_ok_length env hl bg P.products _ t h
    split at hlen <;> split at hlen <;> simpa using hlen
  · intro h0
    rw [List.length_eq_zero] at h0
    rw [h0] at h
    simp [buildProductsFold] at h
    exact h.symm

theorem prepare_ok_cases {env : RenderEnv} {flags : Features}
    {r : OpenCSGRendererInput} {s t : RState}
    (h : prepare env flags r s = .ok t) :
    t = s ∨ t.vbo_vertex_products.length ≠ 0 := by
  unfold prepare at h
  split at h
  · rename_i hg
    rcases h1 : (match r.root_products with
      | some p => createCSGProducts env flags p false false s
      | none => Except.ok s) with e1 | s1
    · rw [h1] at h; cases h
    · rw [h1] at h
      simp only [Except.bind] at h
      rcases h2 : (match r.background_products with
        | some p => createCSGProducts env flags p false true s1
        | none => Except.ok s1) with e2 | s2
      · rw [h2] at h; cases h
      · rw [h2] at h
        simp only [Except.bind] at h
        have step : ∀ (op : Option CSGProducts) (a b : RState) (hlx bgx : Bool),
            (match op with
             | some p => createCSGProducts env flags p hlx bgx a
             | none => Except.ok a) = .ok b →
            a.vbo_vertex_products.length ≤ b.vbo_vertex_products.length ∧
            (b.vbo_vertex_products.length = a.vbo_vertex_products.length → b = a) := by
          intro op a b hlx bgx hop
          rcases op with _ | p
          · cases hop; exact ⟨Nat.le_refl _, fun _ => rfl⟩
          · obtain ⟨hlen, hid⟩ := createCSGProducts_ok_cases hop
            exact ⟨by omega, fun he => hid (by omega)⟩
        obtain ⟨l1, e1'⟩ := step r.root_products s s1 false false h1
        obtain ⟨l2, e2'⟩ := step r.background_products s1 s2 false true h2
        obtain ⟨l3, e3'⟩ := step r.highlights_products s2 t true false h
        by_cases hz : t.vbo_vertex_products.length = 0
        · left
          have hs0 : s.vbo_vertex_products.length = 0 := hg.2
          have h3 := e3' (by omega)
          have h2' := e2' (by omega)
          have h1' := e1' (by omega)
          rw [h3, h2', h1']
        · right; exact hz
  · cases h
    exact Or.inl rfl

/-- C5 (confirmed): `prepare` is idempotent — running `prepare` on the
result of a previous `prepare` changes nothing: no product is appended
twice and no further GPU buffer names are generated, because the guard
`!vbo_vertex_products.size()` blocks a second construction once the first
one has built anything, and a first run that built nothing left the state
unchanged. -/
theorem prepare_idempotent (env : RenderEnv) (flags : Features)
    (r : OpenCSGRendererInput) (s : RState) :
    (prepare env flags r s).bind (prepare env flags r) = prepare env flags r s := by
  rcases hok : prepare env flags r s with e | t
  · rfl
  · show prepare env flags r t = Except.ok t
    rcases prepare_ok_cases hok with rfl | hne
    · exact hok
    · unfold prepare
      rw [if_neg]
      rintro ⟨_, hz⟩
      exact hne hz

theorem cullDraw_append (l1 l2 : List GLEvent) :
    cullDraw (l1 ++ l2) = cullDraw l1 ++ cullDraw l2 :=
  List.filter_append ..

theorem cullDraw_immSelectEvents (si : Option ShaderInfo) (idx : Nat) :
    cullDraw (immSelectEvents si idx) = [] := by
  rw [cullDraw, List.filter_eq_nil_iff]
  intro e he
  obtain ⟨l, b0, b1, b2, rfl⟩ := mem_immSelectEvents he
  simp [cullDrawP]

theorem cullDraw_selectionEvents (si : Option ShaderInfo) (vs : VertexState) :
    cullDraw (selectionEvents si vs) = [] := by
  rw [cullDraw, List.filter_eq_nil_iff]
  intro e he
  obtain ⟨l, b0, b1, b2, rfl⟩ := mem_selectionEvents he
  simp [cullDrawP]

theorem cullDraw_immIntersection_alpha1 (env : RenderEnv) (si : Option ShaderInfo)
    (hl bg : Bool) (o : CSGChainObject) (ps : PolySet)
    (hg : o.leaf.geom = some (.polySet ps))
    (ha : (env.setColor (intersectionColorMode hl bg) o.leaf.color si).a = 1) :
    cullDraw (immIntersectionEvents env si hl bg o) = [.drawSurface ps.geomId] := by
  unfold immIntersectionEvents
  rw [hg]
  simp only [Option.some_bind, Geometry.asPolySet]
  simp only [cullDraw_append, cullDraw_immSelectEvents, ha, if_true]
  simp [cullDraw, cullDrawP]

theorem cullDraw_immIntersection_transparent (env : RenderEnv) (si : Option ShaderInfo)
    (hl bg : Bool) (o : CSGChainObject) (ps : PolySet)
    (hg : o.leaf.geom = some (.polySet ps))
    (ha : (env.setColor (intersectionColorMode hl bg) o.leaf.color si).a ≠ 1) :
    cullDraw (immIntersectionEvents env si hl bg o) =
      [.enableCullFace, .cullFaceFront, .drawSurface ps.geomId,
       .cullFaceBack, .drawSurface ps.geomId, .disableCullFace] := by
  unfold immIntersectionEvents
  rw [hg]
  simp only [Option.some_bind, Geometry.asPolySet]
  simp only [cullDraw_append, cullDraw_immSelectEvents, ha, if_false]
  simp [cullDraw, cullDrawP]

theorem cullDraw_immSubtraction (env : RenderEnv) (si : Option ShaderInfo)
    (hl bg : Bool) (o : CSGChainObject) (ps : PolySet)
    (hg : o.leaf.geom = some (.polySet ps)) :
    cullDraw (immSubtractionEvents env si hl bg o) =
      [.enableCullFace, .cullFaceFront, .drawSurface ps.geomId, .disableCullFace] := by
  unfold immSubtractionEvents
  rw [hg]
  simp only [Option.some_bind, Geometry.asPolySet]
  simp [cullDraw, cullDrawP]

theorem buildIntersectionLeaf_alpha1 (env : RenderEnv) (hl bg : Bool)
    (lc : Color4f) (o : CSGChainObject) (ps : PolySet)
    (hg : o.leaf.geom = some (.polySet ps)) (hne : ps.isEmpty = false)
    (ha : ((env.getShaderColor (intersectionColorMode hl bg) o.leaf.color).getD
      env.colorDefault).a = 1) :
    buildIntersectionLeaf env hl bg lc o =
      .ok ([VertexState.colorState
              ((env.getShaderColor (intersectionColorMode hl bg) o.leaf.color).getD lc),
            VertexState.surface ps.geomId
              ((env.getShaderColor (intersectionColorMode hl bg) o.leaf.color).getD lc)
              o.leaf.index],
           [{ operation := .intersection, convexity := ps.convexity, geomId := ps.geomId }],
           (env.getShaderColor (intersectionColorMode hl bg) o.leaf.color).getD lc) := by
  unfold buildIntersectionLeaf
  rw [hg]
  simp only [Geometry.asPolySet]
  rcases hres : env.getShaderColor (intersectionColorMode hl bg) o.leaf.color with _ | c <;>
    rw [hres] at ha <;>
    simp_all [create_surface, Geometry.getConvexity]

theorem buildIntersectionLeaf_transparent (env : RenderEnv) (hl bg : Bool)
    (lc : Color4f) (o : CSGChainObject) (ps : PolySet)
    (hg : o.leaf.geom = some (.polySet ps)) (hne : ps.isEmpty = false)
    (ha : ((env.getShaderColor (intersectionColorMode hl bg) o.leaf.color).getD
      env.colorDefault).a ≠ 1) :
    buildIntersectionLeaf env hl bg lc o =
      .ok ([VertexState.colorState
              ((env.getShaderColor (intersectionColorMode hl bg) o.leaf.color).getD lc),
            VertexState.cullState [.enableCullFace, .cullFaceFront] [],
            VertexState.surface ps.geomId
              ((env.getShaderColor (intersectionColorMode hl bg) o.leaf.color).getD lc)
              o.leaf.index,
            VertexState.cullState [.cullFaceBack] [],
            VertexState.surface ps.geomId
              ((env.getShaderColor (intersectionColorMode hl bg) o.leaf.color).getD lc)
              o.leaf.index,
            VertexState.cullState [] [.disableCullFace]],
           [{ operation := .intersection, convexity := ps.convexity, geomId := ps.geomId }],
           (env.getShaderColor (intersectionColorMode hl bg) o.leaf.color).getD lc) := by
  unfold buildIntersectionLeaf
  rw [hg]
  simp only [Geometry.asPolySet]
  rcases hres : env.getShaderColor (intersectionColorMode hl bg) o.leaf.color with _ | c <;>
    rw [hres] at ha <;>
    simp_all [create_surface, Geometry.getConvexity]

theorem buildSubtractionLeaf_ok (env : RenderEnv) (hl bg : Bool)
    (lc : Color4f) (o : CSGChainObject) (ps : PolySet)
    (hg : o.leaf.geom = some (.polySet ps)) (hne : ps.isEmpty = false) :
    buildSubtractionLeaf env hl bg lc o =
      .ok ([VertexState.colorState
              ((env.getShaderColor (subtractionColorMode hl bg) o.leaf.color).getD lc),
            VertexState.cullState [.enableCullFace, .cullFaceFront] [],
            VertexState.surface ps.geomId
              ((env.getShaderColor (subtractionColorMode hl bg) o.leaf.color).getD lc)
              o.leaf.index,
            VertexState.cullState [] [.disableCullFace]],
           [{ operation := .subtraction, convexity := ps.convexity, geomId := ps.geomId }],
           (env.getShaderColor (subtractionColorMode hl bg) o.leaf.color).getD lc) := by
  unfold buildSubtractionLeaf
  rw [hg]
  simp only [Geometry.asPolySet]
  rcases hres : env.getShaderColor (subtractionColorMode hl bg) o.leaf.color with _ | c <;>
    simp_all [create_surface, Geometry.getConvexity]

theorem replayState_nonShader (si : Option ShaderInfo) (se : Bool) (vs : VertexState)
    (h : vs.isShader = false) :
    replayState si se vs = selectionEvents si vs ++ vs.drawEvents := by
  unfold replayState
  rw [h]
  simp

theorem cullDraw_replay_colorState (si : Option ShaderInfo) (se : Bool) (c : Color4f) :
    cullDraw (replayState si se (VertexState.colorState c)) = [] := by
  rw [replayState_nonShader si se (VertexState.colorState c) rfl, cullDraw_append,
    cullDraw_selectionEvents]
  simp [VertexState.drawEvents, cullDraw, cullDrawP]

theorem cullDraw_replay_surface (si : Option ShaderInfo) (se : Bool)
    (g : Nat) (c : Color4f) (i : Nat) :
    cullDraw (replayState si se (VertexState.surface g c i)) = [.drawSurface g] := by
  rw [replayState_nonShader si se (VertexState.surface g c i) rfl, cullDraw_append,
    cullDraw_selectionEvents]
  simp [VertexState.drawEvents, cullDraw, cullDrawP]

theorem cullDraw_replay_cullState (si : Option ShaderInfo) (se : Bool)
    (b e : List StateOp) :
    cullDraw (replayState si se (VertexState.cullState b e)) =
      b.map StateOp.event ++ e.map StateOp.event := by
  rw [replayState_nonShader si se (VertexState.cullState b e) rfl, cullDraw_append,
    cullDraw_selectionEvents]
  rw [List.nil_append, cullDraw]
  simp only [VertexState.drawEvents]
  rw [List.filter_eq_self]
  intro a ha
  simp only [VertexState.drawEvents, List.mem_append, List.mem_map] at ha
  rcases ha with ⟨op, _, rfl⟩ | ⟨op, _, rfl⟩ <;> cases op <;> simp [StateOp.event, cullDrawP]

/-- C3 (confirmed): an intersection leaf whose resolved color is opaque
(alpha = 1.0) issues exactly one surface draw with no face-culling state
change; one whose resolved color has alpha < 1.0 issues exactly two surface
draws bracketed by enable-culling/cull-front before the first draw,
cull-back before the second, and disable-culling afterward — in the
immediate path (resolution via `setColor`) and in the buffer-build path
(resolution via `getShaderColor`, falling back to the default-constructed
color when it declines), where the buffer path's states replay to the same
cull/draw pattern. -/
theorem intersection_leaf_transparency (env : RenderEnv) (si : Option ShaderInfo)
    (se hl bg : Bool) (o : CSGChainObject) (ps : PolySet) (lc : Color4f)
    (hg : o.leaf.geom = some (.polySet ps)) :
    ((env.setColor (intersectionColorMode hl bg) o.leaf.color si).a = 1 →
      cullDraw (immIntersectionEvents env si hl bg o) = [.drawSurface ps.geomId]) ∧
    ((env.setColor (intersectionColorMode hl bg) o.leaf.color si).a < 1 →
      cullDraw (immIntersectionEvents env si hl bg o) =
        [.enableCullFace, .cullFaceFront, .drawSurface ps.geomId,
         .cullFaceBack, .drawSurface ps.geomId, .disableCullFace]) ∧
    (ps.isEmpty = false →
      (((env.getShaderColor (intersectionColorMode hl bg) o.leaf.color).getD
          env.colorDefault).a = 1 →
        ∃ st pr lc1, buildIntersectionLeaf env hl bg lc o = .ok (st, pr, lc1) ∧
          cullDraw (st.flatMap (replayState si se)) = [.drawSurface ps.geomId]) ∧
      (((env.getShaderColor (intersectionColorMode hl bg) o.leaf.color).getD
          env.colorDefault).a < 1 →
        ∃ st pr lc1, buildIntersectionLeaf env hl bg lc o = .ok (st, pr, lc1) ∧
          cullDraw (st.flatMap (replayState si se)) =
            [.enableCullFace, .cullFaceFront, .drawSurface ps.geomId,
             .cullFaceBack, .drawSurface ps.geomId, .disableCullFace])) := by
  refine ⟨?_, ?_, ?_⟩
  · intro ha
    exact cullDraw_immIntersection_alpha1 env si hl bg o ps hg ha
  · intro ha
    exact cullDraw_immIntersection_transparent env si hl bg o ps hg (ne_of_lt ha)
  · intro hne
    constructor
    · intro ha
      refine ⟨_, _, _, buildIntersectionLeaf_alpha1 env hl bg lc o ps hg hne ha, ?_⟩
      simp only [List.flatMap_cons, List.flatMap_nil, cullDraw_append,
        cullDraw_replay_colorState, cullDraw_replay_surface]
      simp [cullDraw]
    · intro ha
      refine ⟨_, _, _,
        buildIntersectionLeaf_transparent env hl bg lc o ps hg hne (ne_of_lt ha), ?_⟩
      simp only [List.flatMap_cons, List.flatMap_nil, cullDraw_append,
        cullDraw_replay_colorState, cullDraw_replay_surface, cullDraw_replay_cullState]
      simp [cullDraw, StateOp.event]

/-- C3 witness: applying the theorem to a concrete opaque leaf and a
concrete transparent leaf in both paths. -/
theorem intersection_leaf_transparency_witness :
    cullDraw (immIntersectionEvents exEnv none false false exLeafOpaque)
      = [.drawSurface 4] ∧
    cullDraw (immIntersectionEvents exEnv none false false exLeafTransp)
      = [.enableCullFace, .cullFaceFront, .drawSurface 3,
         .cullFaceBack, .drawSurface 3, .disableCullFace] ∧
    (∃ st pr lc1,
      buildIntersectionLeaf exEnv false false ⟨0, 0, 0, 1⟩ exLeafTransp
        = .ok (st, pr, lc1) ∧
      cullDraw (st.flatMap (replayState none false))
        = [.enableCullFace, .cullFaceFront, .drawSurface 3,
           .cullFaceBack, .drawSurface 3, .disableCullFace]) :=
  ⟨(intersection_leaf_transparency exEnv none false false false exLeafOpaque
      ⟨4, 2, false⟩ ⟨0, 0, 0, 1⟩ rfl).1 (by decide),
   (intersection_leaf_transparency exEnv none false false false exLeafTransp
      ⟨3, 2, false⟩ ⟨0, 0, 0, 1⟩ rfl).2.1 (by decide),
   ((intersection_leaf_transparency exEnv none false false false exLeafTransp
      ⟨3, 2, false⟩ ⟨0, 0, 0, 1⟩ rfl).2.2 rfl).2 (by decide)⟩

/-- C4 (confirmed): a subtraction leaf with supported geometry issues
exactly one surface draw, preceded by enabling culling with front faces
culled and followed by disabling culling, regardless of its resolved
color's alpha — in the immediate path directly, and in the buffer-build
path via the recorded states, which replay to the same cull/draw
pattern. -/
theorem subtraction_leaf_single_draw (env : RenderEnv) (si : Option ShaderInfo)
    (se hl bg : Bool) (o : CSGChainObject) (ps : PolySet) (lc : Color4f)
    (hg : o.leaf.geom = some (.polySet ps)) :
    cullDraw (immSubtractionEvents env si hl bg o) =
      [.enableCullFace, .cullFaceFront, .drawSurface ps.geomId, .disableCullFace] ∧
    (ps.isEmpty = false →
      ∃ st pr lc1, buildSubtractionLeaf env hl bg lc o = .ok (st, pr, lc1) ∧
        cullDraw (st.flatMap (replayState si se)) =
          [.enableCullFace, .cullFaceFront, .drawSurface ps.geomId,
           .disableCullFace]) := by
  refine ⟨cullDraw_immSubtraction env si hl bg o ps hg, ?_⟩
  intro hne
  refine ⟨_, _, _, buildSubtractionLeaf_ok env hl bg lc o ps hg hne, ?_⟩
  simp only [List.flatMap_cons, List.flatMap_nil, cullDraw_append,
    cullDraw_replay_colorState, cullDraw_replay_surface, cullDraw_replay_cullState]
  simp [cullDraw, StateOp.event]

/-- C4 witness: applying the theorem to a concrete transparent subtraction
leaf (its alpha is 1/2, yet it still draws exactly once, front-culled). -/
theorem subtraction_leaf_single_draw_witness :
    cullDraw (immSubtractionEvents exEnv none false false exLeafTransp)
      = [.enableCullFace, .cullFaceFront, .drawSurface 3, .disableCullFace] ∧
    (∃ st pr lc1,
      buildSubtractionLeaf exEnv false false ⟨0, 0, 0, 1⟩ exLeafTransp
        = .ok (st, pr, lc1) ∧
      cullDraw (st.flatMap (replayState none false))
        = [.enableCullFace, .cullFaceFront, .drawSurface 3, .disableCullFace]) :=
  ⟨(subtraction_leaf_single_draw exEnv none false false false exLeafTransp
      ⟨3, 2, false⟩ ⟨0, 0, 0, 1⟩ rfl).1,
   (subtraction_leaf_single_draw exEnv none false false false exLeafTransp
      ⟨3, 2, false⟩ ⟨0, 0, 0, 1⟩ rfl).2 rfl⟩

theorem mem_vboProgramBeginEvents {si : Option ShaderInfo} {se : Bool} {e : GLEvent}
    (h : e ∈ vboProgramBeginEvents si se) :
    (∃ n, e = .useProgram n) ∨ e = .shaderAttribsEnable := by
  unfold vboProgramBeginEvents at h
  rcases si with _ | si
  · simp at h
  · by_cases hp : si.progid ≠ 0
    · simp only [ne_eq, hp, not_false_eq_true, if_true, List.mem_append,
        List.mem_singleton] at h
      rcases h with rfl | h
      · exact Or.inl ⟨_, rfl⟩
      · split at h <;> simp only [List.mem_singleton, List.not_mem_nil] at h
        subst h; exact Or.inr rfl
    · simp [hp] at h

theorem mem_vboProgramEndEvents {si : Option ShaderInfo} {se : Bool} {e : GLEvent}
    (h : e ∈ vboProgramEndEvents si se) :
    (∃ n, e = .useProgram n) ∨ e = .shaderAttribsDisable := by
  unfold vboProgramEndEvents at h
  rcases si with _ | si
  · simp at h
  · by_cases hp : si.progid ≠ 0
    · simp only [ne_eq, hp, not_false_eq_true, if_true, List.mem_append,
        List.mem_singleton] at h
      rcases h with rfl | h
      · exact Or.inl ⟨_, rfl⟩
      · split at h <;> simp only [List.mem_singleton, List.not_mem_nil] at h
        subst h; exact Or.inr rfl
    · simp [hp] at h

theorem drawCount_cullDraw (evs : List GLEvent) :
    drawCount (cullDraw evs) = drawCount evs := by
  unfold drawCount cullDraw
  rw [List.countP_filter]
  congr 1
  funext e
  cases e <;> simp [isDrawEv, cullDrawP]

theorem drawCount_renderProductImm (env : RenderEnv) (si : Option ShaderInfo)
    (se hl bg : Bool) (product : CSGProduct) :
    drawCount (renderProductImm env si se hl bg product) =
      drawCount (product.intersections.flatMap (immIntersectionEvents env si hl bg)) +
      drawCount (product.subtractions.flatMap (immSubtractionEvents env si hl bg)) := by
  have h1 : drawCount (if (immPrimitives product).length > 1 then
      [GLEvent.renderImm (immPrimitives product), GLEvent.depthFuncEqual] else []) = 0 := by
    split <;> simp [drawCount, isDrawEv]
  have h2 : drawCount (immUseProgramEvents si se) = 0 := by
    refine countP_eq_zero_of_not fun e he => ?_
    obtain ⟨n, rfl⟩ := mem_immUseProgramEvents he
    rfl
  have h3 : drawCount (if si.isSome then [GLEvent.useProgram 0] else []) = 0 := by
    split <;> simp [drawCount, isDrawEv]
  unfold renderProductImm
  unfold drawCount at h1 h2 h3 ⊢
  simp only [List.countP_append, h1, h2, h3]
  simp [List.countP_cons, List.countP_nil, isDrawEv]

theorem drawCount_renderProductVBO (si : Option ShaderInfo) (se : Bool)
    (prims : List OpenCSGVBOPrim) (states : List VertexState) :
    drawCount (renderProductVBO si se prims states) =
      drawCount (states.flatMap (replayState si se)) := by
  have h1 : drawCount (if prims.length > 1 then
      [GLEvent.renderVBO prims, GLEvent.depthFuncEqual] else []) = 0 := by
    split <;> simp [drawCount, isDrawEv]
  have h2 : drawCount (vboProgramBeginEvents si se) = 0 :=
    countP_eq_zero_of_not fun e he => by
      rcases mem_vboProgramBeginEvents he with ⟨n, rfl⟩ | rfl <;> rfl
  have h3 : drawCount (vboProgramEndEvents si se) = 0 :=
    countP_eq_zero_of_not fun e he => by
      rcases mem_vboProgramEndEvents he with ⟨n, rfl⟩ | rfl <;> rfl
  unfold renderProductVBO
  unfold drawCount at h1 h2 h3 ⊢
  simp only [List.countP_append, h1, h2, h3]
  simp [List.countP_cons, List.countP_nil, isDrawEv]

/-- C1 (amended): for every Product whose primitive list has at most one
element, neither render path invokes the external boolean compositor and
neither switches the depth-test function to "equal"; for a Product with
exactly one intersection leaf with polygon-surface geometry and no
subtraction leaves, the compositor is never invoked and — when the leaf's
resolved color is opaque (alpha = 1.0) — that leaf's surface is drawn
exactly once (a transparent leaf's surface is instead drawn twice as a
front-culled/back-culled pair). -/
theorem single_primitive_skips_compositor
    (env : RenderEnv) (si : Option ShaderInfo) (se hl bg : Bool)
    (product : CSGProduct) (prims : List OpenCSGVBOPrim) (states : List VertexState)
    (o : CSGChainObject) (ps : PolySet) :
    ((immPrimitives product).length ≤ 1 →
      (renderProductImm env si se hl bg product).countP isCompositeEv = 0 ∧
      (renderProductImm env si se hl bg product).countP isDepthEqualEv = 0) ∧
    (prims.length ≤ 1 →
      (renderProductVBO si se prims states).countP isCompositeEv = 0 ∧
      (renderProductVBO si se prims states).countP isDepthEqualEv = 0) ∧
    (o.leaf.geom = some (.polySet ps) →
      (env.setColor (intersectionColorMode hl bg) o.leaf.color si).a = 1 →
      (renderProductImm env si se hl bg ⟨[o], []⟩).countP isCompositeEv = 0 ∧
      drawCount (renderProductImm env si se hl bg ⟨[o], []⟩) = 1) ∧
    (o.leaf.geom = some (.polySet ps) → ps.isEmpty = false →
      ((env.getShaderColor (intersectionColorMode hl bg) o.leaf.color).getD
        env.colorDefault).a = 1 →
      ∃ st pr, createProductStates env hl bg ⟨[o], []⟩ = .ok (st, pr) ∧
        pr.length = 1 ∧
        (renderProductVBO si se pr st).countP isCompositeEv = 0 ∧
        drawCount (renderProductVBO si se pr st) = 1) := by
  have himm : ∀ (p : CSGProduct), (immPrimitives p).length ≤ 1 →
      (renderProductImm env si se hl bg p).countP isCompositeEv = 0 ∧
      (renderProductImm env si se hl bg p).countP isDepthEqualEv = 0 := by
    intro p hle
    have hc := renderProductImm_notCtl_counts env si se hl bg p isCompositeEv
      (fun e he => (isProductCtl_false_elim he).2.2)
    have hd := renderProductImm_notCtl_counts env si se hl bg p isDepthEqualEv
      (fun e he => (isProductCtl_false_elim he).2.1)
    rw [hc, hd, if_neg (show ¬((immPrimitives p).length > 1) by omega)]
    exact ⟨rfl, rfl⟩
  have hvbo : ∀ (pr : List OpenCSGVBOPrim) (st : List VertexState), pr.length ≤ 1 →
      (renderProductVBO si se pr st).countP isCompositeEv = 0 ∧
      (renderProductVBO si se pr st).countP isDepthEqualEv = 0 := by
    intro pr st hle
    have hc := renderProductVBO_notCtl_counts si se pr st isCompositeEv
      (fun e he => (isProductCtl_false_elim he).2.2)
    have hd := renderProductVBO_notCtl_counts si se pr st isDepthEqualEv
      (fun e he => (isProductCtl_false_elim he).2.1)
    rw [hc, hd, if_neg (show ¬(pr.length > 1) by omega)]
    exact ⟨rfl, rfl⟩
  refine ⟨himm product, hvbo prims states, ?_, ?_⟩
  · intro hg ha
    have hlen : (immPrimitives ⟨[o], []⟩).length = 1 := by
      simp [immPrimitives, hg]
    refine ⟨(himm _ (by omega)).1, ?_⟩
    rw [drawCount_renderProductImm]
    have hseg : drawCount (immIntersectionEvents env si hl bg o) = 1 := by
      rw [← drawCount_cullDraw, cullDraw_immIntersection_alpha1 env si hl bg o ps hg ha]
      rfl
    simp only [List.flatMap_cons, List.flatMap_nil, List.append_nil]
    rw [hseg]
    rfl
  · intro hg hne ha
    have hb := buildIntersectionLeaf_alpha1 env hl bg env.colorDefault o ps hg hne ha
    have hcp : createProductStates env hl bg ⟨[o], []⟩ =
        .ok ([VertexState.colorState
                ((env.getShaderColor (intersectionColorMode hl bg) o.leaf.color).getD
                  env.colorDefault),
              VertexState.surface ps.geomId
                ((env.getShaderColor (intersectionColorMode hl bg) o.leaf.color).getD
                  env.colorDefault) o.leaf.index],
             [{ operation := .intersection, convexity := ps.convexity,
                geomId := ps.geomId }]) := by
      unfold createProductStates buildFold
      rw [hb]
      simp [buildFold]
    refine ⟨_, _, hcp, rfl, (hvbo _ _ (by simp)).1, ?_⟩
    rw [drawCount_renderProductVBO]
    simp only [List.flatMap_cons, List.flatMap_nil]
    rw [drawCount, List.countP_append, List.countP_append]
    have e1 : (replayState si se (VertexState.colorState
        ((env.getShaderColor (intersectionColorMode hl bg) o.leaf.color).getD
          env.colorDefault))).countP isDrawEv = 0 := by
      rw [← drawCount, ← drawCount_cullDraw, cullDraw_replay_colorState]
      rfl
    have e2 : (replayState si se (VertexState.surface ps.geomId
        ((env.getShaderColor (intersectionColorMode hl bg) o.leaf.color).getD
          env.colorDefault) o.leaf.index)).countP isDrawEv = 1 := by
      rw [← drawCount, ← drawCount_cullDraw, cullDraw_replay_surface]
      rfl
    rw [e1, e2]
    rfl

/-- C1 witness: a concrete single-leaf opaque Product skips the compositor
in both paths and draws its surface exactly once. -/
theorem single_primitive_skips_compositor_witness :
    ((renderProductImm exEnv none false false false exProdOpaque).countP
      isCompositeEv = 0 ∧
     drawCount (renderProductImm exEnv none false false false exProdOpaque) = 1) ∧
    (∃ st pr, createProductStates exEnv false false ⟨[exLeafOpaque], []⟩ = .ok (st, pr) ∧
      pr.length = 1 ∧
      (renderProductVBO none false pr st).countP isCompositeEv = 0 ∧
      drawCount (renderProductVBO none false pr st) = 1) :=
  ⟨(single_primitive_skips_compositor exEnv none false false false exProdOpaque
      [] [] exLeafOpaque ⟨4, 2, false⟩).2.2.1 rfl (by decide),
   (single_primitive_skips_compositor exEnv none false false false exProdOpaque
      [] [] exLeafOpaque ⟨4, 2, false⟩).2.2.2 rfl rfl (by decide)⟩

/-- C1 counterexample: a Product with exactly one intersection leaf whose
resolved color is transparent draws that leaf's surface twice, not once —
the claim's unqualified "drawn exactly once" is false. -/
theorem single_leaf_drawn_twice_when_transparent :
    (immPrimitives exProdTransp).length = 1 ∧
    drawCount (renderProductImm exEnv none false false false exProdTransp) = 2 := by
  constructor <;> rfl

/-- C6 (amended): in the buffer-build path, when a leaf's surface write
produces an empty draw range (so the just-written `VertexState` cannot be
recovered as a drawable surface state), the construction aborts via an
assertion for a transparent intersection leaf and for every subtraction
leaf; for an opaque intersection leaf the failure is instead silently
ignored — no assertion, no surface state, and no primitive. -/
theorem empty_surface_write_asserts
    (env : RenderEnv) (hl bg : Bool) (lc : Color4f) (o : CSGChainObject) (ps : PolySet)
    (hg : o.leaf.geom = some (.polySet ps)) (hemp : ps.isEmpty = true) :
    (∀ c : Color4f, create_surface ps c = none) ∧
    (((env.getShaderColor (intersectionColorMode hl bg) o.leaf.color).getD
        env.colorDefault).a ≠ 1 →
      buildIntersectionLeaf env hl bg lc o
        = .error "Intersection surface state was nullptr") ∧
    buildSubtractionLeaf env hl bg lc o
      = .error "Subtraction surface state was nullptr" ∧
    (((env.getShaderColor (intersectionColorMode hl bg) o.leaf.color).getD
        env.colorDefault).a = 1 →
      buildIntersectionLeaf env hl bg lc o =
        .ok ([VertexState.colorState
                ((env.getShaderColor (intersectionColorMode hl bg) o.leaf.color).getD lc)],
             [],
             (env.getShaderColor (intersectionColorMode hl bg) o.leaf.color).getD lc)) := by
  refine ⟨fun c => by simp [create_surface, hemp], ?_, ?_, ?_⟩
  · intro ha
    unfold buildIntersectionLeaf
    rw [hg]
    simp only [Geometry.asPolySet]
    rcases hres : env.getShaderColor (intersectionColorMode hl bg) o.leaf.color with _ | c <;>
      rw [hres] at ha <;>
      simp_all [create_surface]
  · unfold buildSubtractionLeaf
    rw [hg]
    simp only [Geometry.asPolySet]
    rcases hres : env.getShaderColor (subtractionColorMode hl bg) o.leaf.color with _ | c <;>
      simp_all [create_surface]
  · intro ha
    unfold buildIntersectionLeaf
    rw [hg]
    simp only [Geometry.asPolySet]
    rcases hres : env.getShaderColor (intersectionColorMode hl bg) o.leaf.color with _ | c <;>
      rw [hres] at ha <;>
      simp_all [create_surface]

/-- C6 witness: the theorem applied to concrete empty-surface leaves — the
transparent intersection and the subtraction abort, the opaque intersection
does not. -/
theorem empty_surface_write_asserts_witness :
    buildIntersectionLeaf exEnv false false ⟨0, 0, 0, 1⟩ exLeafEmptyTransp
      = .error "Intersection surface state was nullptr" ∧
    buildSubtractionLeaf exEnv false false ⟨0, 0, 0, 1⟩ exLeafEmptyTransp
      = .error "Subtraction surface state was nullptr" ∧
    buildIntersectionLeaf exEnv false false ⟨0, 0, 0, 1⟩ exLeafEmptyOpaque
      = .ok ([VertexState.colorState ⟨1, 1, 1, 1⟩], [], (⟨1, 1, 1, 1⟩ : Color4f)) :=
  ⟨(empty_surface_write_asserts exEnv false false ⟨0, 0, 0, 1⟩ exLeafEmptyTransp
      ⟨6, 2, true⟩ rfl rfl).2.1 (by decide),
   (empty_surface_write_asserts exEnv false false ⟨0, 0, 0, 1⟩ exLeafEmptyTransp
      ⟨6, 2, true⟩ rfl rfl).2.2.1,
   (empty_surface_write_asserts exEnv false false ⟨0, 0, 0, 1⟩ exLeafEmptyOpaque
      ⟨5, 2, true⟩ rfl rfl).2.2.2 (by decide)⟩

/-- C6 counterexample: an opaque intersection leaf whose surface write
produces an empty draw range does not abort — the recovery of the written
surface state fails (`create_surface` yields `none`) yet construction
continues normally, so the claim that the assertion fires for every such
leaf regardless of operation and transparency is false. -/
theorem empty_surface_write_silent_skip :
    create_surface ⟨5, 2, true⟩ ⟨1, 1, 1, 1⟩ = none ∧
    buildIntersectionLeaf exEnv false false ⟨0, 0, 0, 1⟩ exLeafEmptyOpaque
      = .ok ([VertexState.colorState ⟨1, 1, 1, 1⟩], [], (⟨1, 1, 1, 1⟩ : Color4f)) :=
  ⟨rfl, rfl⟩

/-- C10 (confirmed): in the buffer-build path, for a leaf with supported
geometry, when the resolver declines to override the color the leaf's
surface is written with the previously resolved `last_color` (which also
remains the running `last_color`), and `last_color` is updated — to the
resolver's output — only when the resolver does override. -/
theorem last_color_retained_on_decline (env : RenderEnv) (hl bg : Bool)
    (lc : Color4f) (o : CSGChainObject) (ps : PolySet)
    (hg : o.leaf.geom = some (.polySet ps)) :
    (env.getShaderColor (intersectionColorMode hl bg) o.leaf.color = none →
      ∀ st pr lc1, buildIntersectionLeaf env hl bg lc o = .ok (st, pr, lc1) →
        lc1 = lc ∧
        (∀ g c i, VertexState.surface g c i ∈ st → c = lc) ∧
        (∀ c, VertexState.colorState c ∈ st → c = lc)) ∧
    (∀ c0, env.getShaderColor (intersectionColorMode hl bg) o.leaf.color = some c0 →
      ∀ st pr lc1, buildIntersectionLeaf env hl bg lc o = .ok (st, pr, lc1) →
        lc1 = c0) ∧
    (env.getShaderColor (subtractionColorMode hl bg) o.leaf.color = none →
      ∀ st pr lc1, buildSubtractionLeaf env hl bg lc o = .ok (st, pr, lc1) →
        lc1 = lc ∧
        (∀ g c i, VertexState.surface g c i ∈ st → c = lc) ∧
        (∀ c, VertexState.colorState c ∈ st → c = lc)) ∧
    (∀ c0, env.getShaderColor (subtractionColorMode hl bg) o.leaf.color = some c0 →
      ∀ st pr lc1, buildSubtractionLeaf env hl bg lc o = .ok (st, pr, lc1) →
        lc1 = c0) := by
  refine ⟨?_, ?_, ?_, ?_⟩
  · intro hres st pr lc1 hok
    unfold buildIntersectionLeaf at hok
    rw [hg] at hok
    simp only [Geometry.asPolySet, hres] at hok
    rcases hemp : ps.isEmpty with _ | _
    · rw [show create_surface ps lc = some (ps.geomId, lc) by
        simp [create_surface, hemp]] at hok
      split at hok <;> cases hok <;>
        refine ⟨rfl, fun g c i hm => ?_, fun c hm => ?_⟩ <;> simp at hm <;> tauto
    · rw [show create_surface ps lc = none by simp [create_surface, hemp]] at hok
      split at hok <;> cases hok <;>
        refine ⟨rfl, fun g c i hm => ?_, fun c hm => ?_⟩ <;> simp at hm <;> tauto
  · intro c0 hres st pr lc1 hok
    unfold buildIntersectionLeaf at hok
    rw [hg] at hok
    simp only [Geometry.asPolySet, hres] at hok
    split at hok <;> split at hok <;> cases hok <;> rfl
  · intro hres st pr lc1 hok
    unfold buildSubtractionLeaf at hok
    rw [hg] at hok
    simp only [Geometry.asPolySet, hres] at hok
    rcases hemp : ps.isEmpty with _ | _
    · rw [show create_surface ps lc = some (ps.geomId, lc) by
        simp [create_surface, hemp]] at hok
      cases hok <;>
        refine ⟨rfl, fun g c i hm => ?_, fun c hm => ?_⟩ <;> simp at hm <;> tauto
    · rw [show create_surface ps lc = none by simp [create_surface, hemp]] at hok
      cases hok
  · intro c0 hres st pr lc1 hok
    unfold buildSubtractionLeaf at hok
    rw [hg] at hok
    simp only [Geometry.asPolySet, hres] at hok
    split at hok <;> cases hok <;> rfl

/-- C10 witness: with a resolver that always declines, a concrete leaf's
surface state carries the incoming `last_color`, which is also retained;
with a resolver that overrides, `last_color` becomes the override. -/
theorem last_color_retained_on_decline_witness :
    (∀ st pr lc1,
      buildIntersectionLeaf exEnvDecline false false ⟨1, 0, 0, 1⟩ exLeafOpaque
        = .ok (st, pr, lc1) →
      lc1 = ⟨1, 0, 0, 1⟩ ∧
      (∀ g c i, VertexState.surface g c i ∈ st → c = ⟨1, 0, 0, 1⟩) ∧
      (∀ c, VertexState.colorState c ∈ st → c = ⟨1, 0, 0, 1⟩)) ∧
    (∀ st pr lc1,
      buildIntersectionLeaf exEnv false false ⟨1, 0, 0, 1⟩ exLeafOpaque
        = .ok (st, pr, lc1) →
      lc1 = ⟨1, 1, 1, 1⟩) :=
  ⟨(last_color_retained_on_decline exEnvDecline false false ⟨1, 0, 0, 1⟩ exLeafOpaque
      ⟨4, 2, false⟩ rfl).1 rfl,
   (last_color_retained_on_decline exEnv false false ⟨1, 0, 0, 1⟩ exLeafOpaque
      ⟨4, 2, false⟩ rfl).2.1 ⟨1, 1, 1, 1⟩ rfl⟩

theorem buildIntersectionLeaf_skip_none (env : RenderEnv) (hl bg : Bool)
    (lc : Color4f) (o : CSGChainObject) (hg : o.leaf.geom = none) :
    buildIntersectionLeaf env hl bg lc o = .ok ([], [], lc) := by
  unfold buildIntersectionLeaf
  rw [hg]

theorem buildIntersectionLeaf_skip_other (env : RenderEnv) (hl bg : Bool)
    (lc : Color4f) (o : CSGChainObject) (c : Nat)
    (hg : o.leaf.geom = some (.other c)) :
    buildIntersectionLeaf env hl bg lc o = .ok ([], [], lc) := by
  unfold buildIntersectionLeaf
  rw [hg]
  rfl

theorem buildSubtractionLeaf_skip_none (env : RenderEnv) (hl bg : Bool)
    (lc : Color4f) (o : CSGChainObject) (hg : o.leaf.geom = none) :
    buildSubtractionLeaf env hl bg lc o = .ok ([], [], lc) := by
  unfold buildSubtractionLeaf
  rw [hg]

theorem buildSubtractionLeaf_skip_other (env : RenderEnv) (hl bg : Bool)
    (lc : Color4f) (o : CSGChainObject) (c : Nat)
    (hg : o.leaf.geom = some (.other c)) :
    buildSubtractionLeaf env hl bg lc o = .ok ([], [], lc) := by
  unfold buildSubtractionLeaf
  rw [hg]
  rfl

theorem buildIntersectionLeaf_empty_alpha1 (env : RenderEnv) (hl bg : Bool)
    (lc : Color4f) (o : CSGChainObject) (ps : PolySet)
    (hg : o.leaf.geom = some (.polySet ps)) (hemp : ps.isEmpty = true)
    (ha : ((env.getShaderColor (intersectionColorMode hl bg) o.leaf.color).getD
      env.colorDefault).a = 1) :
    buildIntersectionLeaf env hl bg lc o =
      .ok ([VertexState.colorState
              ((env.getShaderColor (intersectionColorMode hl bg) o.leaf.color).getD lc)],
           [],
           (env.getShaderColor (intersectionColorMode hl bg) o.leaf.color).getD lc) := by
  unfold buildIntersectionLeaf
  rw [hg]
  simp only [Geometry.asPolySet]
  rcases hres : env.getShaderColor (intersectionColorMode hl bg) o.leaf.color with _ | c <;>
    rw [hres] at ha <;>
    simp_all [create_surface]

theorem buildIntersectionLeaf_empty_transparent (env : RenderEnv) (hl bg : Bool)
    (lc : Color4f) (o : CSGChainObject) (ps : PolySet)
    (hg : o.leaf.geom = some (.polySet ps)) (hemp : ps.isEmpty = true)
    (ha : ((env.getShaderColor (intersectionColorMode hl bg) o.leaf.color).getD
      env.colorDefault).a ≠ 1) :
    buildIntersectionLeaf env hl bg lc o
      = .error "Intersection surface state was nullptr" := by
  unfold buildIntersectionLeaf
  rw [hg]
  simp only [Geometry.asPolySet]
  rcases hres : env.getShaderColor (intersectionColorMode hl bg) o.leaf.color with _ | c <;>
    rw [hres] at ha <;>
    simp_all [create_surface]

theorem buildSubtractionLeaf_empty (env : RenderEnv) (hl bg : Bool)
    (lc : Color4f) (o : CSGChainObject) (ps : PolySet)
    (hg : o.leaf.geom = some (.polySet ps)) (hemp : ps.isEmpty = true) :
    buildSubtractionLeaf env hl bg lc o
      = .error "Subtraction surface state was nullptr" := by
  unfold buildSubtractionLeaf
  rw [hg]
  simp only [Geometry.asPolySet]
  rcases hres : env.getShaderColor (subtractionColorMode hl bg) o.leaf.color with _ | c <;>
    simp_all [create_surface]

theorem buildIntersectionLeaf_no_shader (env : RenderEnv) (hl bg : Bool) :
    ∀ (lc : Color4f) (o : CSGChainObject) s pr lc1,
      buildIntersectionLeaf env hl bg lc o = .ok (s, pr, lc1) →
      ∀ vs ∈ s, vs.isShader = false := by
  intro lc o s pr lc1 hok
  rcases hg : o.leaf.geom with _ | g
  · rw [buildIntersectionLeaf_skip_none env hl bg lc o hg] at hok
    cases hok; simp
  · rcases g with ps | c
    · by_cases ha : ((env.getShaderColor (intersectionColorMode hl bg)
        o.leaf.color).getD env.colorDefault).a = 1
      · rcases hemp : ps.isEmpty with _ | _
        · rw [buildIntersectionLeaf_alpha1 env hl bg lc o ps hg hemp ha] at hok
          cases hok
          intro vs hm
          fin_cases hm <;> rfl
        · rw [buildIntersectionLeaf_empty_alpha1 env hl bg lc o ps hg hemp ha] at hok
          cases hok
          intro vs hm
          fin_cases hm <;> rfl
      · rcases hemp : ps.isEmpty with _ | _
        · rw [buildIntersectionLeaf_transparent env hl bg lc o ps hg hemp ha] at hok
          cases hok
          intro vs hm
          fin_cases hm <;> rfl
        · rw [buildIntersectionLeaf_empty_transparent env hl bg lc o ps hg hemp ha] at hok
          cases hok
    · rw [buildIntersectionLeaf_skip_other env hl bg lc o c hg] at hok
      cases hok; simp

theorem buildSubtractionLeaf_no_shader (env : RenderEnv) (hl bg : Bool) :
    ∀ (lc : Color4f) (o : CSGChainObject) s pr lc1,
      buildSubtractionLeaf env hl bg lc o = .ok (s, pr, lc1) →
      ∀ vs ∈ s, vs.isShader = false := by
  intro lc o s pr lc1 hok
  rcases hg : o.leaf.geom with _ | g
  · rw [buildSubtractionLeaf_skip_none env hl bg lc o hg] at hok
    cases hok; simp
  · rcases g with ps | c
    · rcases hemp : ps.isEmpty with _ | _
      · rw [buildSubtractionLeaf_ok env hl bg lc o ps hg hemp] at hok
        cases hok
        intro vs hm
        fin_cases hm <;> rfl
      · rw [buildSubtractionLeaf_empty env hl bg lc o ps hg hemp] at hok
        cases hok
    · rw [buildSubtractionLeaf_skip_other env hl bg lc o c hg] at hok
      cases hok; simp

theorem buildFold_states_prop
    (step : Color4f → CSGChainObject →
      Except String (List VertexState × List OpenCSGVBOPrim × Color4f))
    (P : VertexState → Prop)
    (hstep : ∀ lc o s pr lc1, step lc o = .ok (s, pr, lc1) → ∀ vs ∈ s, P vs) :
    ∀ (objs : List CSGChainObject) (lc : Color4f) st pr lc1,
      buildFold step lc objs = .ok (st, pr, lc1) → ∀ vs ∈ st, P vs := by
  intro objs
  induction objs with
  | nil =>
    intro lc st pr lc1 h
    unfold buildFold at h
    cases h
    simp
  | cons o t ih =>
    intro lc st pr lc1 h
    unfold buildFold at h
    rcases hs : step lc o with e | ⟨s1, p1, lc2⟩ <;> rw [hs] at h <;> dsimp only at h
    · cases h
    · rcases hr : buildFold step lc2 t with e | ⟨s2, p2, lc3⟩ <;> rw [hr] at h <;>
        dsimp only at h
      · cases h
      · cases h
        intro vs hm
        rcases List.mem_append.mp hm with h1 | h2
        · exact hstep lc o s1 p1 lc2 hs vs h1
        · exact ih lc2 s2 p2 _ hr vs h2

theorem createProductStates_no_shader {env : RenderEnv} {hl bg : Bool}
    {p : CSGProduct} {st : List VertexState} {pr : List OpenCSGVBOPrim}
    (hok : createProductStates env hl bg p = .ok (st, pr)) :
    ∀ vs ∈ st, vs.isShader = false := by
  unfold createProductStates at hok
  rcases h1 : buildFold (buildIntersectionLeaf env hl bg) env.colorDefault p.intersections
    with e | ⟨s1, p1, lc1⟩ <;> rw [h1] at hok <;> dsimp only at hok
  · cases hok
  · rcases h2 : buildFold (buildSubtractionLeaf env hl bg) lc1 p.subtractions
      with e | ⟨s2, p2, lc2⟩ <;> rw [h2] at hok <;> dsimp only at hok
    · cases hok
    · cases hok
      intro vs hm
      rcases List.mem_append.mp hm with hm1 | hm2
      · exact buildFold_states_prop _ _ (buildIntersectionLeaf_no_shader env hl bg)
          p.intersections env.colorDefault s1 p1 lc1 h1 vs hm1
      · exact buildFold_states_prop _ _ (buildSubtractionLeaf_no_shader env hl bg)
          p.subtractions lc1 s2 p2 lc2 h2 vs hm2

theorem flatMap_replay_eq (si : Option ShaderInfo) (se : Bool) :
    ∀ (states : List VertexState), (∀ vs ∈ states, vs.isShader = false) →
      states.flatMap (replayState si se) = states.flatMap (replayStateSpec si) := by
  intro states h
  induction states with
  | nil => rfl
  | cons v t ih =>
    rw [List.flatMap_cons, List.flatMap_cons,
      replayState_nonShader si se v (h v (by simp)),
      ih (fun x hx => h x (by simp [hx]))]
    rfl

/-- C7 (confirmed): in the buffer-build path's replay, every retained
`VertexState` of a product built by `createCSGProducts` is executed each
frame — its selection upload (when it carries a leaf index and the
selection shader is active), its pre-draw callbacks, its draw call, and its
post-draw callbacks — i.e. the source's replay loop (which skips only
shader states, none of which this construction creates) agrees with the
unconditional per-state replay `replayStateSpec`. -/
theorem replay_executes_every_state (si : Option ShaderInfo) (se : Bool)
    (states : List VertexState) (env : RenderEnv) (hl bg : Bool) (p : CSGProduct)
    (st : List VertexState) (pr : List OpenCSGVBOPrim) :
    ((∀ vs ∈ states, vs.isShader = false) →
      states.flatMap (replayState si se) = states.flatMap (replayStateSpec si)) ∧
    (createProductStates env hl bg p = .ok (st, pr) →
      st.flatMap (replayState si se) = st.flatMap (replayStateSpec si)) := by
  refine ⟨flatMap_replay_eq si se states, fun hok => ?_⟩
  exact flatMap_replay_eq si se st (createProductStates_no_shader hok)

/-- C7 witness: the theorem applied to a concretely built product's states
(one color state, one indexed surface state) under the selection shader:
the guarded replay equals the unconditional replay, and the selection
upload happens exactly once (for the indexed surface state). -/
theorem replay_executes_every_state_witness :
    ([VertexState.colorState ⟨1, 1, 1, 1⟩,
      VertexState.surface 4 ⟨1, 1, 1, 1⟩ 8].flatMap
        (replayState (some exShaderSelect) false))
      = [VertexState.colorState ⟨1, 1, 1, 1⟩,
         VertexState.surface 4 ⟨1, 1, 1, 1⟩ 8].flatMap
          (replayStateSpec (some exShaderSelect)) ∧
    ([VertexState.colorState ⟨1, 1, 1, 1⟩,
      VertexState.surface 4 ⟨1, 1, 1, 1⟩ 8].flatMap
        (replayState (some exShaderSelect) false)).countP
        (fun e => match e with | .selectUniform _ _ _ _ => true | _ => false) = 1 :=
  ⟨((replay_executes_every_state (some exShaderSelect) false
      [VertexState.colorState ⟨1, 1, 1, 1⟩, VertexState.surface 4 ⟨1, 1, 1, 1⟩ 8]
      exEnv false false exProdOpaque [] []).1 (by decide)),
   by rfl⟩

theorem toList_append_filterMap {α β : Type} (f : α → Option β) (o : α) (t : List α) :
    (f o).toList ++ t.filterMap f = (o :: t).filterMap f := by
  rcases h : f o with _ | b <;> simp [List.filterMap_cons, h]

theorem buildIntersectionLeaf_ok_prims (env : RenderEnv) (hl bg : Bool)
    (lc : Color4f) (o : CSGChainObject)
    (hne : ∀ ps, o.leaf.geom = some (.polySet ps) → ps.isEmpty = false) :
    ∃ s lc1 pr, buildIntersectionLeaf env hl bg lc o = .ok (s, pr, lc1) ∧
      pr = (vboPrimOf .intersection o).toList := by
  rcases hg : o.leaf.geom with _ | g
  · exact ⟨[], lc, [], buildIntersectionLeaf_skip_none env hl bg lc o hg,
      by simp [vboPrimOf, hg]⟩
  · rcases g with ps | c
    · have hemp := hne ps hg
      by_cases ha : ((env.getShaderColor (intersectionColorMode hl bg)
          o.leaf.color).getD env.colorDefault).a = 1
      · exact ⟨_, _, _, buildIntersectionLeaf_alpha1 env hl bg lc o ps hg hemp ha,
          by simp [vboPrimOf, hg, Geometry.asPolySet, Geometry.getConvexity]⟩
      · exact ⟨_, _, _, buildIntersectionLeaf_transparent env hl bg lc o ps hg hemp ha,
          by simp [vboPrimOf, hg, Geometry.asPolySet, Geometry.getConvexity]⟩
    · exact ⟨[], lc, [], buildIntersectionLeaf_skip_other env hl bg lc o c hg,
        by simp [vboPrimOf, hg, Geometry.asPolySet]⟩

theorem buildSubtractionLeaf_ok_prims (env : RenderEnv) (hl bg : Bool)
    (lc : Color4f) (o : CSGChainObject)
    (hne : ∀ ps, o.leaf.geom = some (.polySet ps) → ps.isEmpty = false) :
    ∃ s lc1 pr, buildSubtractionLeaf env hl bg lc o = .ok (s, pr, lc1) ∧
      pr = (vboPrimOf .subtraction o).toList := by
  rcases hg : o.leaf.geom with _ | g
  · exact ⟨[], lc, [], buildSubtractionLeaf_skip_none env hl bg lc o hg,
      by simp [vboPrimOf, hg]⟩
  · rcases g with ps | c
    · exact ⟨_, _, _, buildSubtractionLeaf_ok env hl bg lc o ps hg (hne ps hg),
        by simp [vboPrimOf, hg, Geometry.asPolySet, Geometry.getConvexity]⟩
    · exact ⟨[], lc, [], buildSubtractionLeaf_skip_other env hl bg lc o c hg,
        by simp [vboPrimOf, hg, Geometry.asPolySet]⟩

theorem buildFold_prims_eq
    (step : Color4f → CSGChainObject →
      Except String (List VertexState × List OpenCSGVBOPrim × Color4f))
    (primOf : CSGChainObject → Option OpenCSGVBOPrim) :
    ∀ (objs : List CSGChainObject),
      (∀ o ∈ objs, ∀ lc : Color4f,
        ∃ s lc1 pr, step lc o = .ok (s, pr, lc1) ∧ pr = (primOf o).toList) →
      ∀ lc, ∃ st lc1, buildFold step lc objs = .ok (st, objs.filterMap primOf, lc1) := by
  intro objs
  induction objs with
  | nil =>
    intro h lc
    exact ⟨[], lc, rfl⟩
  | cons o t ih =>
    intro h lc
    obtain ⟨s1, lc2, pr1, hs, hpr⟩ := h o (by simp) lc
    obtain ⟨st2, lc3, hrest⟩ := ih (fun x hx lcx => h x (by simp [hx]) lcx) lc2
    refine ⟨s1 ++ st2, lc3, ?_⟩
    unfold buildFold
    rw [hs]
    dsimp only
    rw [hrest]
    dsimp only
    rw [hpr, toList_append_filterMap]

theorem createProductStates_prims (env : RenderEnv) (hl bg : Bool)
    (product : CSGProduct)
    (hne : ∀ o ∈ product.intersections ++ product.subtractions, ∀ ps,
      o.leaf.geom = some (.polySet ps) → ps.isEmpty = false) :
    ∃ st, createProductStates env hl bg product =
      .ok (st, product.intersections.filterMap (vboPrimOf .intersection)
            ++ product.subtractions.filterMap (vboPrimOf .subtraction)) := by
  obtain ⟨st1, lc1, h1⟩ := buildFold_prims_eq _ _ product.intersections
    (fun o ho lc => buildIntersectionLeaf_ok_prims env hl bg lc o
      (fun ps hg => hne o (by simp [ho]) ps hg)) env.colorDefault
  obtain ⟨st2, lc2, h2⟩ := buildFold_prims_eq _ _ product.subtractions
    (fun o ho lc => buildSubtractionLeaf_ok_prims env hl bg lc o
      (fun ps hg => hne o (by simp [ho]) ps hg)) lc1
  refine ⟨st1 ++ st2, ?_⟩
  unfold createProductStates
  rw [h1]
  dsimp only
  rw [h2]

theorem length_filterMap_geomMap (objs : List CSGChainObject)
    (f : CSGChainObject → Geometry → OpenCSGPrim) :
    (objs.filterMap fun o => o.leaf.geom.map (f o)).length
      = objs.countP fun o => o.leaf.geom.isSome := by
  induction objs with
  | nil => rfl
  | cons o t ih =>
    rcases hg : o.leaf.geom with _ | g <;>
      simp [List.filterMap_cons, hg, List.countP_cons, ih]

/-- C2 (amended): each leaf whose geometry is present contributes exactly
one primitive to the immediate path's compositor list (in
intersections-then-subtractions order) — including a leaf whose present
geometry is not a polygon surface, whose primitive then has a null surface
and renders nothing; a leaf with absent geometry contributes nothing.  In
the buffer-build path a leaf contributes a primitive (and `VertexState`s)
exactly when its geometry is present and is a polygon surface: leaves with
absent or unsupported geometry contribute no `VertexState` and no
primitive, and the retained primitive list is exactly one primitive per
supported leaf, in the original order. -/
theorem compositor_receives_one_primitive_per_leaf
    (env : RenderEnv) (hl bg : Bool) (product : CSGProduct)
    (o : CSGChainObject) (g : Geometry) (lc : Color4f) :
    ((immPrimitives product).length
        = (product.intersections.countP fun x => x.leaf.geom.isSome)
          + (product.subtractions.countP fun x => x.leaf.geom.isSome)) ∧
    (o.leaf.geom = some g → g.asPolySet = none →
      (createCSGPrimitive o g .intersection).geom = none ∧
      (createCSGPrimitive o g .intersection).renderEvents = []) ∧
    (o.leaf.geom = none →
      buildIntersectionLeaf env hl bg lc o = .ok ([], [], lc) ∧
      buildSubtractionLeaf env hl bg lc o = .ok ([], [], lc)) ∧
    (o.leaf.geom = some g → g.asPolySet = none →
      buildIntersectionLeaf env hl bg lc o = .ok ([], [], lc) ∧
      buildSubtractionLeaf env hl bg lc o = .ok ([], [], lc)) ∧
    ((∀ x ∈ product.intersections ++ product.subtractions, ∀ ps,
        x.leaf.geom = some (.polySet ps) → ps.isEmpty = false) →
      ∃ st, createProductStates env hl bg product =
        .ok (st, product.intersections.filterMap (vboPrimOf .intersection)
              ++ product.subtractions.filterMap (vboPrimOf .subtraction))) := by
  refine ⟨?_, ?_, ?_, ?_, ?_⟩
  · unfold immPrimitives
    rw [List.length_append, length_filterMap_geomMap, length_filterMap_geomMap]
  · intro hg hps
    refine ⟨hps, ?_⟩
    unfold OpenCSGPrim.renderEvents
    simp [createCSGPrimitive, hps]
  · intro hg
    exact ⟨buildIntersectionLeaf_skip_none env hl bg lc o hg,
      buildSubtractionLeaf_skip_none env hl bg lc o hg⟩
  · intro hg hps
    rcases g with ps | c
    · simp [Geometry.asPolySet] at hps
    · exact ⟨buildIntersectionLeaf_skip_other env hl bg lc o c hg,
        buildSubtractionLeaf_skip_other env hl bg lc o c hg⟩
  · exact createProductStates_prims env hl bg product

/-- C2 witness: the theorem applied to a concrete product with one
supported and one unsupported leaf, an absent-geometry leaf, and a
concretely built opaque product whose retained primitive list has exactly
one entry, for its one supported leaf. -/
theorem compositor_receives_one_primitive_per_leaf_witness :
    (immPrimitives exProdUnsupported).length = 2 ∧
    ((createCSGPrimitive exLeafOther (.other 5) .intersection).geom = none ∧
     (createCSGPrimitive exLeafOther (.other 5) .intersection).renderEvents = []) ∧
    buildIntersectionLeaf exEnv false false ⟨0, 0, 0, 1⟩ exLeafNoGeom
      = .ok ([], [], (⟨0, 0, 0, 1⟩ : Color4f)) ∧
    buildIntersectionLeaf exEnv false false ⟨0, 0, 0, 1⟩ exLeafOther
      = .ok ([], [], (⟨0, 0, 0, 1⟩ : Color4f)) ∧
    (∃ st, createProductStates exEnv false false exProdOpaque =
      .ok (st, [{ operation := .intersection, convexity := 2, geomId := 4 }])) :=
  ⟨(compositor_receives_one_primitive_per_leaf exEnv false false exProdUnsupported
      exLeafOther (.other 5) ⟨0, 0, 0, 1⟩).1,
   (compositor_receives_one_primitive_per_leaf exEnv false false exProdUnsupported
      exLeafOther (.other 5) ⟨0, 0, 0, 1⟩).2.1 rfl rfl,
   ((compositor_receives_one_primitive_per_leaf exEnv false false exProdUnsupported
      exLeafNoGeom (.other 5) ⟨0, 0, 0, 1⟩).2.2.1 rfl).1,
   ((compositor_receives_one_primitive_per_leaf exEnv false false exProdUnsupported
      exLeafOther (.other 5) ⟨0, 0, 0, 1⟩).2.2.2.1 rfl rfl).1,
   (compositor_receives_one_primitive_per_leaf exEnv false false exProdOpaque
      exLeafOther (.other 5) ⟨0, 0, 0, 1⟩).2.2.2.2 (by
        intro x hx ps hg
        have hx2 : x = exLeafOpaque := by simpa [exProdOpaque] using hx
        subst hx2
        injection hg with h
        injection h with h2
        subst h2
        rfl)⟩

/-- C2 counterexample: a Product holding one supported leaf and one leaf
with present but unsupported geometry yields an immediate-path primitive
list of length two — the unsupported leaf DOES contribute a primitive —
and, the list having more than one element, the compositor is invoked with
both; the claim that only supported polygon-surface leaves contribute
primitives is false for the immediate path. -/
theorem unsupported_leaf_contributes_primitive :
    (immPrimitives exProdUnsupported).length = 2 ∧
    (exProdUnsupported.intersections.countP fun o =>
      (o.leaf.geom.bind Geometry.asPolySet).isSome) = 1 ∧
    GLEvent.renderImm (immPrimitives exProdUnsupported) ∈
      renderProductImm exEnv none false false false exProdUnsupported := by
  refine ⟨rfl, rfl, ?_⟩
  decide
